import Mathlib

/-!
Verification of the normalized-value interaction and drag-gesture state
machine of the iced_audio widget library (knob, h-slider, v-slider, ramp,
xy-pad).

Modelling conventions:
* `f32` values are embedded as exact rationals (`ℚ`).  All arithmetic the
  widgets perform on the concrete inputs used in witnesses and
  counterexamples below is exact in `f32` as well (dyadic rationals of
  small precision), so control flow and comparisons agree with the source.
* `f32::EPSILON` is `2 ^ (-23)`.
* The host toolkit (iced) is an external collaborator: its
  `Rectangle::contains` test is embedded with its documented half-open
  semantics, its click classification (`mouse::Click::kind`) is treated as
  an oracle carried on the pointer-down event, and callback publication is
  modelled by emitting an `Out` marker whenever the corresponding optional
  callback is defined.
* The `core` module of the repository (types `Normal`, `NormalParam`,
  `SliderStatus`, `ModulationRange`) and the h-slider event handler are
  not present under `src/`; those definitions are modelled from the spec
  and marked as such.
-/

namespace IcedAudio

/-- f32 scalars, embedded as exact rationals. -/
abbrev F32 := ℚ

/-- f32::EPSILON, the machine epsilon on f32, exactly 2 ^ (-23). -/
def f32Epsilon : F32 := 1 / 2 ^ 23

/-- A 2D point (cursor / touch position), as delivered by the host toolkit. -/
structure Point where
  x : F32
  y : F32
deriving DecidableEq

/-- Widget layout bounds, as delivered by the host toolkit. -/
structure Rect where
  x : F32
  y : F32
  width : F32
  height : F32
deriving DecidableEq

/-- The host toolkit's rectangle containment test (half-open on the far
edges): `self.x <= p.x && p.x < self.x + self.width && ...`. -/
def Rect.contains (b : Rect) (p : Point) : Prop :=
  b.x ≤ p.x ∧ p.x < b.x + b.width ∧ b.y ≤ p.y ∧ p.y < b.y + b.height

instance (b : Rect) (p : Point) : Decidable (b.contains p) := by
  unfold Rect.contains; infer_instance

/-- The host toolkit's `cursor.is_over(bounds)`: false when the cursor
position is unavailable. -/
def isOver (cursor : Option Point) (b : Rect) : Prop :=
  match cursor with
  | some p => b.contains p
  | none => False

instance (cursor : Option Point) (b : Rect) : Decidable (isOver cursor b) := by
  unfold isOver; cases cursor <;> infer_instance

/-- Keyboard modifier set (`keyboard::Modifiers` bit flags). -/
structure Modifiers where
  shift : Bool
  ctrl : Bool
  alt : Bool
  logo : Bool
deriving DecidableEq

/-- `Modifiers::contains`: every flag set in `b` is also set in `a`. -/
def Modifiers.contains (a b : Modifiers) : Prop :=
  (b.shift = true → a.shift = true) ∧ (b.ctrl = true → a.ctrl = true) ∧
    (b.alt = true → a.alt = true) ∧ (b.logo = true → a.logo = true)

instance (a b : Modifiers) : Decidable (a.contains b) := by
  unfold Modifiers.contains; infer_instance

/-- The empty modifier set (`Modifiers::default()`). -/
def Modifiers.empty : Modifiers := ⟨false, false, false, false⟩

/-- `keyboard::Modifiers::CTRL`, the default required modifier set. -/
def Modifiers.CTRL : Modifiers := ⟨false, true, false, false⟩

/-- Modelled from the spec: `Normal` (the repository's `core` module is not
under `src/`) — a scalar constrained to `[0, 1]`; out-of-range inputs are
clamped, not rejected. -/
structure Normal where
  val : F32
deriving DecidableEq

/-- Modelled from the spec: `Normal::clip` clamps the raw input to
`[0, 1]`; it never fails. -/
def Normal.clip (r : F32) : Normal :=
  ⟨if r < 0 then 0 else if r > 1 then 1 else r⟩

/-- Modelled from the spec: `Normal::as_f32` returns the underlying scalar. -/
def Normal.as_f32 (n : Normal) : F32 := n.val

/-- Modelled from the spec: `Normal::set_clipped` replaces the stored value
with the clamped input. -/
def Normal.set_clipped (_n : Normal) (r : F32) : Normal := Normal.clip r

/-- Modelled from the spec: `NormalParam` — the committed value together
with the default value restored by the reset gesture. -/
structure NormalParam where
  value : Normal
  default : Normal
deriving DecidableEq

/-- Modelled from the spec: `SliderStatus`, the per-drag progress marker
(`GestureProgress ∈ {Unchanged, Moved}`); `Default::default()` is
`Unchanged`. -/
inductive SliderStatus
  | Unchanged
  | Moved
deriving DecidableEq

/-- `SliderStatus::was_moved`. -/
def SliderStatus.was_moved : SliderStatus → Bool
  | .Moved => true
  | .Unchanged => false

/-- `SliderStatus::moved` — marks the drag as having produced a value
update. -/
def SliderStatus.moved (_s : SliderStatus) : SliderStatus := .Moved

/-- Modelled from the spec: `ModulationRange` (the repository's `core`
module is not under `src/`) — a pair of normalized endpoints, pure display
data. -/
structure ModulationRange where
  start : Normal
  stop : Normal
deriving DecidableEq

/-- Scroll amount of a `WheelScrolled` event (`mouse::ScrollDelta`). -/
inductive ScrollDelta
  | Lines (x y : F32)
  | Pixels (x y : F32)
deriving DecidableEq

/-- The toolkit's click classification (`mouse::Click::kind()`): `Single`
begins a drag, anything else (double, triple, …) is the reset path. -/
inductive ClickKind
  | Single
  | Multi
deriving DecidableEq

/-- Inbound host events relevant to the widgets.  `CursorMoved` covers
`mouse::CursorMoved` and `touch::FingerMoved`; `ButtonPressed` covers a
left-button press / `FingerPressed` with the toolkit's click
classification; `ButtonReleased` covers left-button release,
`FingerLifted` and `FingerLost`; `Keyboard` covers the three keyboard
events, all of which only replace the pressed-modifier set. -/
inductive WidgetEvent
  | CursorMoved (position : Point)
  | WheelScrolled (delta : ScrollDelta)
  | ButtonPressed (kind : ClickKind)
  | ButtonReleased
  | Keyboard (modifiers : Modifiers)
  | Other
deriving DecidableEq

/-- `event::Status` returned to the host. -/
inductive Status
  | Captured
  | Ignored
deriving DecidableEq

/-- Observable callback emissions, in publication order.  `grab` /
`release` are emitted exactly when the corresponding optional callback is
defined (modelling a callback that returns a message); `change` /
`changeXY` carry the newly committed value(s). -/
inductive Out
  | grab
  | change (value : Normal)
  | changeXY (x y : Normal)
  | release
deriving DecidableEq

/-- Result of one `on_event` step: the updated widget, updated local
state, published messages in order, and the event status. -/
structure StepResult (W S : Type) where
  widget : W
  state : S
  outs : List Out
  status : Status
deriving DecidableEq

/-- Result of `move_virtual_slider`. -/
structure MoveResult (W S : Type) where
  widget : W
  state : S
  status : SliderStatus
deriving DecidableEq

/-! ## Knob (src/src/widget/knob.rs) -/

/-- The `Knob` widget: its parameter and interaction configuration.
`on_grab` / `on_release` record whether the optional callbacks are set. -/
structure Knob where
  normal_param : NormalParam
  scalar : F32
  wheel_scalar : F32
  modifier_scalar : F32
  modifier_keys : Modifiers
  on_grab : Bool
  on_release : Bool
  mod_range_1 : Option ModulationRange
  mod_range_2 : Option ModulationRange
deriving DecidableEq

/-- The knob's local interaction state (`state::State`; the file mirrors
v_slider/state.rs, with the fields used by knob.rs).  The toolkit's
`last_click` record is not modelled: click classification is carried on
the pointer-down event. -/
structure KnobState where
  dragging_status : Option SliderStatus
  prev_drag_y : F32
  prev_normal : Normal
  continuous_normal : F32
  pressed_modifiers : Modifiers
deriving DecidableEq

/-- `Knob::move_virtual_slider` (knob.rs:243-258): epsilon guard on the
incoming delta, then modifier scaling, then clip-and-resync. -/
def Knob.move_virtual_slider (k : Knob) (st : KnobState) (normal_delta : F32) :
    MoveResult Knob KnobState :=
  if |normal_delta| < f32Epsilon then
    ⟨k, st, .Unchanged⟩
  else
    let normal_delta :=
      if st.pressed_modifiers.contains k.modifier_keys then
        normal_delta * k.modifier_scalar
      else normal_delta
    let value := k.normal_param.value.set_clipped (st.continuous_normal - normal_delta)
    let k := { k with normal_param := { k.normal_param with value := value } }
    let st := { st with continuous_normal := value.as_f32 }
    ⟨k, st, .Moved⟩

/-- The discontinuity-reconciliation block at the head of
`Knob::on_event` (knob.rs:321-325): "Update state after a discontinuity". -/
def Knob.reconcile (k : Knob) (st : KnobState) : KnobState :=
  if st.dragging_status = none ∧ st.prev_normal ≠ k.normal_param.value then
    { st with
      prev_normal := k.normal_param.value
      continuous_normal := k.normal_param.value.as_f32 }
  else st

/-- `Knob::on_event` (knob.rs:306-465). -/
def Knob.on_event (k : Knob) (bounds : Rect) (cursor : Option Point)
    (st : KnobState) (ev : WidgetEvent) : StepResult Knob KnobState :=
  -- Update state after a discontinuity (knob.rs:321-325)
  let st := k.reconcile st
  match ev with
  | .CursorMoved position =>
    if st.dragging_status.isSome then
      let normal_delta := (position.y - st.prev_drag_y) * k.scalar
      let st := { st with prev_drag_y := position.y }
      let r := k.move_virtual_slider st normal_delta
      if r.status.was_moved then
        ⟨r.widget, { r.state with dragging_status := some .Moved },
          [.change r.widget.normal_param.value], .Captured⟩
      else
        ⟨r.widget, r.state, [], .Captured⟩
    else ⟨k, st, [], .Ignored⟩
  | .WheelScrolled delta =>
    if k.wheel_scalar = 0 then
      ⟨k, st, [], .Ignored⟩
    else if isOver cursor bounds then
      let lines :=
        match delta with
        | .Lines _ y => y
        | .Pixels _ y => if y > 0 then 1 else if y < 0 then -1 else 0
      if lines ≠ 0 then
        let normal_delta := -lines * k.wheel_scalar
        let r := k.move_virtual_slider st normal_delta
        if r.status.was_moved then
          match r.state.dragging_status with
          | some _ =>
            ⟨r.widget, { r.state with dragging_status := some .Moved },
              [.change r.widget.normal_param.value], .Captured⟩
          | none =>
            ⟨r.widget, r.state,
              (if r.widget.on_grab then [Out.grab] else []) ++
                [.change r.widget.normal_param.value] ++
                (if r.widget.on_release then [Out.release] else []),
              .Captured⟩
        else ⟨r.widget, r.state, [], .Captured⟩
      else ⟨k, st, [], .Ignored⟩
    else ⟨k, st, [], .Ignored⟩
  | .ButtonPressed kind =>
    match cursor with
    | some cursor_position =>
      if bounds.contains cursor_position then
        match kind with
        | .Single =>
          ⟨k,
            { st with
              dragging_status := some .Unchanged
              prev_drag_y := cursor_position.y },
            (if k.on_grab then [Out.grab] else []), .Captured⟩
        | .Multi =>
          -- Reset to default
          let prev_dragging_status := st.dragging_status
          let st := { st with dragging_status := none }
          if k.normal_param.value ≠ k.normal_param.default then
            let grabOuts :=
              if prev_dragging_status = none ∧ k.on_grab then [Out.grab] else []
            let k :=
              { k with normal_param := { k.normal_param with value := k.normal_param.default } }
            ⟨k, st,
              grabOuts ++ [.change k.normal_param.value] ++
                (if k.on_release then [Out.release] else []),
              .Captured⟩
          else if prev_dragging_status.isSome then
            ⟨k, st, (if k.on_release then [Out.release] else []), .Captured⟩
          else ⟨k, st, [], .Captured⟩
      else ⟨k, st, [], .Ignored⟩
    | none => ⟨k, st, [], .Ignored⟩
  | .ButtonReleased =>
    match st.dragging_status with
    | some slider_status =>
      let st := { st with dragging_status := none }
      if k.on_grab = true ∨ slider_status.was_moved = true then
        ⟨k, st, (if k.on_release then [Out.release] else []), .Captured⟩
      else ⟨k, st, [], .Captured⟩
    | none => ⟨k, st, [], .Ignored⟩
  | .Keyboard modifiers =>
    ⟨k, { st with pressed_modifiers := modifiers }, [], .Captured⟩
  | .Other => ⟨k, st, [], .Ignored⟩

/-! ## VSlider (src/src/widget/v_slider.rs) -/

/-- The `VSlider` widget configuration. -/
structure VSlider where
  normal_param : NormalParam
  scalar : F32
  wheel_scalar : F32
  modifier_scalar : F32
  modifier_keys : Modifiers
  on_grab : Bool
  on_release : Bool
  mod_range_1 : Option ModulationRange
  mod_range_2 : Option ModulationRange
deriving DecidableEq

/-- The v-slider's local interaction state (v_slider/state.rs). -/
structure VSliderState where
  dragging_status : Option SliderStatus
  prev_drag_y : F32
  prev_normal : Normal
  continuous_normal : F32
  pressed_modifiers : Modifiers
deriving DecidableEq

/-- `VSlider::move_virtual_slider` (v_slider.rs:241-256), identical in
shape to the knob's. -/
def VSlider.move_virtual_slider (v : VSlider) (st : VSliderState) (normal_delta : F32) :
    MoveResult VSlider VSliderState :=
  if |normal_delta| < f32Epsilon then
    ⟨v, st, .Unchanged⟩
  else
    let normal_delta :=
      if st.pressed_modifiers.contains v.modifier_keys then
        normal_delta * v.modifier_scalar
      else normal_delta
    let value := v.normal_param.value.set_clipped (st.continuous_normal - normal_delta)
    let v := { v with normal_param := { v.normal_param with value := value } }
    let st := { st with continuous_normal := value.as_f32 }
    ⟨v, st, .Moved⟩

/-- `VSlider::on_event` (v_slider.rs:303-470).  The drag-move branch
normalizes the pixel delta by the widget height, guarded by
`bounds.height > 0.0`, and clamps the recorded drag anchor to the bounds. -/
def VSlider.reconcile (v : VSlider) (st : VSliderState) : VSliderState :=
  if st.dragging_status = none ∧ st.prev_normal ≠ v.normal_param.value then
    { st with
      prev_normal := v.normal_param.value
      continuous_normal := v.normal_param.value.as_f32 }
  else st

def VSlider.on_event (v : VSlider) (bounds : Rect) (cursor : Option Point)
    (st : VSliderState) (ev : WidgetEvent) : StepResult VSlider VSliderState :=
  -- Update state after a discontinuity (v_slider.rs:318-322)
  let st := v.reconcile st
  match ev with
  | .CursorMoved position =>
    if st.dragging_status.isSome then
      if bounds.height > 0 then
        let normal_delta := (position.y - st.prev_drag_y) / bounds.height * v.scalar
        let st :=
          { st with
            prev_drag_y :=
              if position.y ≤ bounds.y then bounds.y
              else min position.y (bounds.y + bounds.height) }
        let r := v.move_virtual_slider st normal_delta
        if r.status.was_moved then
          ⟨r.widget, { r.state with dragging_status := some .Moved },
            [.change r.widget.normal_param.value], .Captured⟩
        else
          ⟨r.widget, r.state, [], .Captured⟩
      else ⟨v, st, [], .Ignored⟩
    else ⟨v, st, [], .Ignored⟩
  | .WheelScrolled delta =>
    if v.wheel_scalar = 0 then
      ⟨v, st, [], .Ignored⟩
    else if isOver cursor bounds then
      let lines :=
        match delta with
        | .Lines _ y => y
        | .Pixels _ y => if y > 0 then 1 else if y < 0 then -1 else 0
      if lines ≠ 0 then
        let normal_delta := -lines * v.wheel_scalar
        let r := v.move_virtual_slider st normal_delta
        if r.status.was_moved then
          match r.state.dragging_status with
          | some _ =>
            ⟨r.widget, { r.state with dragging_status := some .Moved },
              [.change r.widget.normal_param.value], .Captured⟩
          | none =>
            ⟨r.widget, r.state,
              (if r.widget.on_grab then [Out.grab] else []) ++
                [.change r.widget.normal_param.value] ++
                (if r.widget.on_release then [Out.release] else []),
              .Captured⟩
        else ⟨r.widget, r.state, [], .Captured⟩
      else ⟨v, st, [], .Ignored⟩
    else ⟨v, st, [], .Ignored⟩
  | .ButtonPressed kind =>
    match cursor with
    | some cursor_position =>
      if bounds.contains cursor_position then
        match kind with
        | .Single =>
          ⟨v,
            { st with
              dragging_status := some .Unchanged
              prev_drag_y := cursor_position.y },
            (if v.on_grab then [Out.grab] else []), .Captured⟩
        | .Multi =>
          -- Reset to default
          let prev_dragging_status := st.dragging_status
          let st := { st with dragging_status := none }
          if v.normal_param.value ≠ v.normal_param.default then
            let grabOuts :=
              if prev_dragging_status = none ∧ v.on_grab then [Out.grab] else []
            let v :=
              { v with normal_param := { v.normal_param with value := v.normal_param.default } }
            ⟨v, st,
              grabOuts ++ [.change v.normal_param.value] ++
                (if v.on_release then [Out.release] else []),
              .Captured⟩
          else if prev_dragging_status.isSome then
            ⟨v, st, (if v.on_release then [Out.release] else []), .Captured⟩
          else ⟨v, st, [], .Captured⟩
      else ⟨v, st, [], .Ignored⟩
    | none => ⟨v, st, [], .Ignored⟩
  | .ButtonReleased =>
    match st.dragging_status with
    | some slider_status =>
      let st := { st with dragging_status := none }
      if v.on_grab = true ∨ slider_status.was_moved = true then
        ⟨v, st, (if v.on_release then [Out.release] else []), .Captured⟩
      else ⟨v, st, [], .Captured⟩
    | none => ⟨v, st, [], .Ignored⟩
  | .Keyboard modifiers =>
    ⟨v, { st with pressed_modifiers := modifiers }, [], .Captured⟩
  | .Other => ⟨v, st, [], .Ignored⟩

/-! ## Ramp (src/src/widget/ramp.rs) -/

/-- The `Ramp` widget configuration (the ramp has no modulation ranges;
its `direction` only affects rendering and is omitted). -/
structure Ramp where
  normal_param : NormalParam
  scalar : F32
  wheel_scalar : F32
  modifier_scalar : F32
  modifier_keys : Modifiers
  on_grab : Bool
  on_release : Bool
deriving DecidableEq

/-- The ramp's local interaction state (ramp.rs:239-246). -/
structure RampState where
  dragging_status : Option SliderStatus
  prev_drag_y : F32
  prev_normal : Normal
  continuous_normal : F32
  pressed_modifiers : Modifiers
deriving DecidableEq

/-- `Ramp::move_virtual_slider` (ramp.rs:201-216). -/
def Ramp.move_virtual_slider (w : Ramp) (st : RampState) (normal_delta : F32) :
    MoveResult Ramp RampState :=
  if |normal_delta| < f32Epsilon then
    ⟨w, st, .Unchanged⟩
  else
    let normal_delta :=
      if st.pressed_modifiers.contains w.modifier_keys then
        normal_delta * w.modifier_scalar
      else normal_delta
    let value := w.normal_param.value.set_clipped (st.continuous_normal - normal_delta)
    let w := { w with normal_param := { w.normal_param with value := value } }
    let st := { st with continuous_normal := value.as_f32 }
    ⟨w, st, .Moved⟩

/-- `Ramp::on_event` (ramp.rs:300-458); the interaction logic coincides
with the knob's. -/
def Ramp.reconcile (w : Ramp) (st : RampState) : RampState :=
  if st.dragging_status = none ∧ st.prev_normal ≠ w.normal_param.value then
    { st with
      prev_normal := w.normal_param.value
      continuous_normal := w.normal_param.value.as_f32 }
  else st

def Ramp.on_event (w : Ramp) (bounds : Rect) (cursor : Option Point)
    (st : RampState) (ev : WidgetEvent) : StepResult Ramp RampState :=
  -- Update state after a discontinuity (ramp.rs:316-319)
  let st := w.reconcile st
  match ev with
  | .CursorMoved position =>
    if st.dragging_status.isSome then
      let normal_delta := (position.y - st.prev_drag_y) * w.scalar
      let st := { st with prev_drag_y := position.y }
      let r := w.move_virtual_slider st normal_delta
      if r.status.was_moved then
        ⟨r.widget, { r.state with dragging_status := some .Moved },
          [.change r.widget.normal_param.value], .Captured⟩
      else
        ⟨r.widget, r.state, [], .Captured⟩
    else ⟨w, st, [], .Ignored⟩
  | .WheelScrolled delta =>
    if w.wheel_scalar = 0 then
      ⟨w, st, [], .Ignored⟩
    else if isOver cursor bounds then
      let lines :=
        match delta with
        | .Lines _ y => y
        | .Pixels _ y => if y > 0 then 1 else if y < 0 then -1 else 0
      if lines ≠ 0 then
        let normal_delta := -lines * w.wheel_scalar
        let r := w.move_virtual_slider st normal_delta
        if r.status.was_moved then
          match r.state.dragging_status with
          | some _ =>
            ⟨r.widget, { r.state with dragging_status := some .Moved },
              [.change r.widget.normal_param.value], .Captured⟩
          | none =>
            ⟨r.widget, r.state,
              (if r.widget.on_grab then [Out.grab] else []) ++
                [.change r.widget.normal_param.value] ++
                (if r.widget.on_release then [Out.release] else []),
              .Captured⟩
        else ⟨r.widget, r.state, [], .Captured⟩
      else ⟨w, st, [], .Ignored⟩
    else ⟨w, st, [], .Ignored⟩
  | .ButtonPressed kind =>
    match cursor with
    | some cursor_position =>
      if bounds.contains cursor_position then
        match kind with
        | .Single =>
          ⟨w,
            { st with
              dragging_status := some .Unchanged
              prev_drag_y := cursor_position.y },
            (if w.on_grab then [Out.grab] else []), .Captured⟩
        | .Multi =>
          -- Reset to default
          let prev_dragging_status := st.dragging_status
          let st := { st with dragging_status := none }
          if w.normal_param.value ≠ w.normal_param.default then
            let grabOuts :=
              if prev_dragging_status = none ∧ w.on_grab then [Out.grab] else []
            let w :=
              { w with normal_param := { w.normal_param with value := w.normal_param.default } }
            ⟨w, st,
              grabOuts ++ [.change w.normal_param.value] ++
                (if w.on_release then [Out.release] else []),
              .Captured⟩
          else if prev_dragging_status.isSome then
            ⟨w, st, (if w.on_release then [Out.release] else []), .Captured⟩
          else ⟨w, st, [], .Captured⟩
      else ⟨w, st, [], .Ignored⟩
    | none => ⟨w, st, [], .Ignored⟩
  | .ButtonReleased =>
    match st.dragging_status with
    | some slider_status =>
      let st := { st with dragging_status := none }
      if w.on_grab = true ∨ slider_status.was_moved = true then
        ⟨w, st, (if w.on_release then [Out.release] else []), .Captured⟩
      else ⟨w, st, [], .Captured⟩
    | none => ⟨w, st, [], .Ignored⟩
  | .Keyboard modifiers =>
    ⟨w, { st with pressed_modifiers := modifiers }, [], .Captured⟩
  | .Other => ⟨w, st, [], .Ignored⟩

/-! ## XYPad (src/src/widget/xy_pad.rs) -/

/-- The `XYPad` widget configuration: two axes, no wheel or drag scalars
(movement is normalized by the pixel span directly). -/
structure XYPad where
  normal_param_x : NormalParam
  normal_param_y : NormalParam
  modifier_scalar : F32
  modifier_keys : Modifiers
  on_grab : Bool
  on_release : Bool
deriving DecidableEq

/-- The xy-pad's local interaction state (xy_pad.rs:161-170).  Note: it
tracks no `prev_normal` — the xy-pad has no per-event discontinuity
reconciliation block. -/
structure XYPadState where
  dragging_status : Option SliderStatus
  prev_drag_x : F32
  prev_drag_y : F32
  continuous_normal_x : F32
  continuous_normal_y : F32
  pressed_modifiers : Modifiers
deriving DecidableEq

/-- The square interaction region's side: `min(width, height)`
(xy_pad.rs:252-258, 311-317). -/
def XYPad.bounds_size (bounds : Rect) : F32 :=
  if bounds.width ≤ bounds.height then bounds.width else bounds.height

/-- `XYPad::on_event` (xy_pad.rs:233-400). -/
def XYPad.on_event (w : XYPad) (bounds : Rect) (cursor : Option Point)
    (st : XYPadState) (ev : WidgetEvent) : StepResult XYPad XYPadState :=
  match ev with
  | .CursorMoved position =>
    if st.dragging_status.isSome then
      let bounds_size := XYPad.bounds_size bounds
      if bounds_size ≠ 0 then
        let movement_x := (position.x - st.prev_drag_x) / bounds_size
        let movement_y := (position.y - st.prev_drag_y) / bounds_size
        let movement_x :=
          if st.pressed_modifiers.contains w.modifier_keys then
            movement_x * w.modifier_scalar
          else movement_x
        let movement_y :=
          if st.pressed_modifiers.contains w.modifier_keys then
            movement_y * w.modifier_scalar
          else movement_y
        let normal_x := st.continuous_normal_x + movement_x
        let normal_y := st.continuous_normal_y - movement_y
        let st :=
          { st with
            prev_drag_x := position.x
            prev_drag_y := position.y
            continuous_normal_x := normal_x
            continuous_normal_y := normal_y }
        let w :=
          { w with
            normal_param_x :=
              { w.normal_param_x with value := w.normal_param_x.value.set_clipped normal_x }
            normal_param_y :=
              { w.normal_param_y with value := w.normal_param_y.value.set_clipped normal_y } }
        ⟨w, { st with dragging_status := some .Moved },
          [.changeXY w.normal_param_x.value w.normal_param_y.value], .Captured⟩
      else ⟨w, st, [], .Ignored⟩
    else ⟨w, st, [], .Ignored⟩
  | .ButtonPressed kind =>
    match cursor with
    | some cursor_position =>
      if bounds.contains cursor_position then
        match kind with
        | .Single =>
          let st :=
            { st with
              dragging_status := some .Unchanged
              prev_drag_x := cursor_position.x
              prev_drag_y := cursor_position.y
              continuous_normal_x := w.normal_param_x.value.as_f32
              continuous_normal_y := w.normal_param_y.value.as_f32 }
          let bounds_size := XYPad.bounds_size bounds
          let normal_x := (cursor_position.x - bounds.x) / bounds_size
          let normal_y := 1 - (cursor_position.y - bounds.y) / bounds_size
          let st :=
            { st with
              continuous_normal_x := normal_x
              continuous_normal_y := normal_y }
          let w :=
            { w with
              normal_param_x :=
                { w.normal_param_x with value := w.normal_param_x.value.set_clipped normal_x }
              normal_param_y :=
                { w.normal_param_y with value := w.normal_param_y.value.set_clipped normal_y } }
          ⟨w, st,
            (if w.on_grab then [Out.grab] else []) ++
              [.changeXY w.normal_param_x.value w.normal_param_y.value],
            .Captured⟩
        | .Multi =>
          -- Reset to default; note the conjunction: both axes must differ
          -- from their defaults, and no grab is ever synthesized here.
          let prev_dragging_status := st.dragging_status
          let st := { st with dragging_status := none }
          if w.normal_param_x.value ≠ w.normal_param_x.default ∧
              w.normal_param_y.value ≠ w.normal_param_y.default then
            let w :=
              { w with
                normal_param_x := { w.normal_param_x with value := w.normal_param_x.default }
                normal_param_y := { w.normal_param_y with value := w.normal_param_y.default } }
            let st :=
              { st with
                continuous_normal_x := w.normal_param_x.default.as_f32
                continuous_normal_y := w.normal_param_y.default.as_f32 }
            ⟨w, st,
              [.changeXY w.normal_param_x.value w.normal_param_y.value] ++
                (if w.on_release then [Out.release] else []),
              .Captured⟩
          else if prev_dragging_status.isSome then
            ⟨w, st, (if w.on_release then [Out.release] else []), .Captured⟩
          else ⟨w, st, [], .Captured⟩
      else ⟨w, st, [], .Ignored⟩
    | none => ⟨w, st, [], .Ignored⟩
  | .ButtonReleased =>
    match st.dragging_status with
    | some slider_status =>
      let st := { st with dragging_status := none }
      let outs :=
        if w.on_grab = true ∨ slider_status.was_moved = true then
          (if w.on_release then [Out.release] else [])
        else []
      let st :=
        { st with
          continuous_normal_x := w.normal_param_x.value.as_f32
          continuous_normal_y := w.normal_param_y.value.as_f32 }
      ⟨w, st, outs, .Captured⟩
    | none => ⟨w, st, [], .Ignored⟩
  | .Keyboard modifiers =>
    ⟨w, { st with pressed_modifiers := modifiers }, [], .Captured⟩
  | _ => ⟨w, st, [], .Ignored⟩

/-! ## HSlider

Modelled from the spec: the h-slider's event handler (`widget/h_slider.rs`)
is not under `src/` — only its state, draw and marker submodules are.  Per
the spec it shares the v-slider's state machine with the x axis as the
input axis, sign convention "drag right → increase", the value scaled by
the widget pixel width, and a `bounds.width > 0` guard on the drag-move
computation. -/

/-- Modelled from the spec: the `HSlider` widget configuration, the mirror
of `VSlider`. -/
structure HSlider where
  normal_param : NormalParam
  scalar : F32
  wheel_scalar : F32
  modifier_scalar : F32
  modifier_keys : Modifiers
  on_grab : Bool
  on_release : Bool
  mod_range_1 : Option ModulationRange
  mod_range_2 : Option ModulationRange
deriving DecidableEq

/-- The h-slider's local interaction state (h_slider/state.rs, which is
under `src/`). -/
structure HSliderState where
  dragging_status : Option SliderStatus
  prev_drag_x : F32
  prev_normal : Normal
  continuous_normal : F32
  pressed_modifiers : Modifiers
deriving DecidableEq

/-- Modelled from the spec: `HSlider::move_virtual_slider`, sharing the
v-slider's shape (epsilon guard, modifier scaling, clip-and-resync). -/
def HSlider.move_virtual_slider (h : HSlider) (st : HSliderState) (normal_delta : F32) :
    MoveResult HSlider HSliderState :=
  if |normal_delta| < f32Epsilon then
    ⟨h, st, .Unchanged⟩
  else
    let normal_delta :=
      if st.pressed_modifiers.contains h.modifier_keys then
        normal_delta * h.modifier_scalar
      else normal_delta
    let value := h.normal_param.value.set_clipped (st.continuous_normal - normal_delta)
    let h := { h with normal_param := { h.normal_param with value := value } }
    let st := { st with continuous_normal := value.as_f32 }
    ⟨h, st, .Moved⟩

/-- Modelled from the spec: `HSlider::on_event`, the mirror of the
v-slider's handler over the x axis; the drag delta is negated so that a
rightward drag increases the value. -/
def HSlider.reconcile (h : HSlider) (st : HSliderState) : HSliderState :=
  if st.dragging_status = none ∧ st.prev_normal ≠ h.normal_param.value then
    { st with
      prev_normal := h.normal_param.value
      continuous_normal := h.normal_param.value.as_f32 }
  else st

def HSlider.on_event (h : HSlider) (bounds : Rect) (cursor : Option Point)
    (st : HSliderState) (ev : WidgetEvent) : StepResult HSlider HSliderState :=
  -- Update state after a discontinuity
  let st := h.reconcile st
  match ev with
  | .CursorMoved position =>
    if st.dragging_status.isSome then
      if bounds.width > 0 then
        let normal_delta := -((position.x - st.prev_drag_x) / bounds.width * h.scalar)
        let st :=
          { st with
            prev_drag_x :=
              if position.x ≤ bounds.x then bounds.x
              else min position.x (bounds.x + bounds.width) }
        let r := h.move_virtual_slider st normal_delta
        if r.status.was_moved then
          ⟨r.widget, { r.state with dragging_status := some .Moved },
            [.change r.widget.normal_param.value], .Captured⟩
        else
          ⟨r.widget, r.state, [], .Captured⟩
      else ⟨h, st, [], .Ignored⟩
    else ⟨h, st, [], .Ignored⟩
  | .WheelScrolled delta =>
    if h.wheel_scalar = 0 then
      ⟨h, st, [], .Ignored⟩
    else if isOver cursor bounds then
      let lines :=
        match delta with
        | .Lines _ y => y
        | .Pixels _ y => if y > 0 then 1 else if y < 0 then -1 else 0
      if lines ≠ 0 then
        let normal_delta := -lines * h.wheel_scalar
        let r := h.move_virtual_slider st normal_delta
        if r.status.was_moved then
          match r.state.dragging_status with
          | some _ =>
            ⟨r.widget, { r.state with dragging_status := some .Moved },
              [.change r.widget.normal_param.value], .Captured⟩
          | none =>
            ⟨r.widget, r.state,
              (if r.widget.on_grab then [Out.grab] else []) ++
                [.change r.widget.normal_param.value] ++
                (if r.widget.on_release then [Out.release] else []),
              .Captured⟩
        else ⟨r.widget, r.state, [], .Captured⟩
      else ⟨h, st, [], .Ignored⟩
    else ⟨h, st, [], .Ignored⟩
  | .ButtonPressed kind =>
    match cursor with
    | some cursor_position =>
      if bounds.contains cursor_position then
        match kind with
        | .Single =>
          ⟨h,
            { st with
              dragging_status := some .Unchanged
              prev_drag_x := cursor_position.x },
            (if h.on_grab then [Out.grab] else []), .Captured⟩
        | .Multi =>
          -- Reset to default
          let prev_dragging_status := st.dragging_status
          let st := { st with dragging_status := none }
          if h.normal_param.value ≠ h.normal_param.default then
            let grabOuts :=
              if prev_dragging_status = none ∧ h.on_grab then [Out.grab] else []
            let h :=
              { h with normal_param := { h.normal_param with value := h.normal_param.default } }
            ⟨h, st,
              grabOuts ++ [.change h.normal_param.value] ++
                (if h.on_release then [Out.release] else []),
              .Captured⟩
          else if prev_dragging_status.isSome then
            ⟨h, st, (if h.on_release then [Out.release] else []), .Captured⟩
          else ⟨h, st, [], .Captured⟩
      else ⟨h, st, [], .Ignored⟩
    | none => ⟨h, st, [], .Ignored⟩
  | .ButtonReleased =>
    match st.dragging_status with
    | some slider_status =>
      let st := { st with dragging_status := none }
      if h.on_grab = true ∨ slider_status.was_moved = true then
        ⟨h, st, (if h.on_release then [Out.release] else []), .Captured⟩
      else ⟨h, st, [], .Captured⟩
    | none => ⟨h, st, [], .Ignored⟩
  | .Keyboard modifiers =>
    ⟨h, { st with pressed_modifiers := modifiers }, [], .Captured⟩
  | .Other => ⟨h, st, [], .Ignored⟩

/-! ## Builder methods and event-sequence runs -/

/-- `Knob::mod_range` (knob.rs:217-220): sets the first modulation range.
Named `set_mod_range` here to avoid clashing with the field projection. -/
def Knob.set_mod_range (k : Knob) (m : ModulationRange) : Knob :=
  { k with mod_range_1 := some m }

/-- `Knob::mod_range_2` (knob.rs:228-231), transcribed exactly: the body
assigns `self.mod_range_1 = Some(mod_range)` — not `mod_range_2`. -/
def Knob.set_mod_range_2 (k : Knob) (m : ModulationRange) : Knob :=
  { k with mod_range_1 := some m }

/-- `VSlider::mod_range` (v_slider.rs:225-228). -/
def VSlider.set_mod_range (v : VSlider) (m : ModulationRange) : VSlider :=
  { v with mod_range_1 := some m }

/-- `VSlider::mod_range_2` (v_slider.rs:236-239), transcribed exactly: the
body assigns `self.mod_range_1 = Some(mod_range)`. -/
def VSlider.set_mod_range_2 (v : VSlider) (m : ModulationRange) : VSlider :=
  { v with mod_range_1 := some m }

/-- One host-delivered input: the widget's laid-out bounds, the cursor,
and the event. -/
structure HostInput where
  bounds : Rect
  cursor : Option Point
  event : WidgetEvent
deriving DecidableEq

/-- Fold a knob over a host event sequence (discarding outputs). -/
def Knob.run (k : Knob) (st : KnobState) : List HostInput → Knob × KnobState
  | [] => (k, st)
  | i :: rest =>
    let r := k.on_event i.bounds i.cursor st i.event
    Knob.run r.widget r.state rest

/-- Fold a v-slider over a host event sequence. -/
def VSlider.run (v : VSlider) (st : VSliderState) : List HostInput → VSlider × VSliderState
  | [] => (v, st)
  | i :: rest =>
    let r := v.on_event i.bounds i.cursor st i.event
    VSlider.run r.widget r.state rest

/-- Fold a ramp over a host event sequence. -/
def Ramp.run (w : Ramp) (st : RampState) : List HostInput → Ramp × RampState
  | [] => (w, st)
  | i :: rest =>
    let r := w.on_event i.bounds i.cursor st i.event
    Ramp.run r.widget r.state rest

/-- Fold an xy-pad over a host event sequence. -/
def XYPad.run (w : XYPad) (st : XYPadState) : List HostInput → XYPad × XYPadState
  | [] => (w, st)
  | i :: rest =>
    let r := w.on_event i.bounds i.cursor st i.event
    XYPad.run r.widget r.state rest

/-- Fold an h-slider over a host event sequence. -/
def HSlider.run (h : HSlider) (st : HSliderState) : List HostInput → HSlider × HSliderState
  | [] => (h, st)
  | i :: rest =>
    let r := h.on_event i.bounds i.cursor st i.event
    HSlider.run r.widget r.state rest

/-- `Knob::new` (knob.rs:77-98): the builder's initial configuration.  The
f32 literals of the source (0.00385, 0.01, 0.02) are taken at their
decimal value. -/
def Knob.new (normal_param : NormalParam) : Knob :=
  { normal_param := normal_param
    scalar := 0.00385
    wheel_scalar := 0.01
    modifier_scalar := 0.02
    modifier_keys := Modifiers.CTRL
    on_grab := false
    on_release := false
    mod_range_1 := none
    mod_range_2 := none }

/-- A concrete parameter used by witnesses: value 1/2, default 1/2. -/
def exParam : NormalParam := ⟨⟨1/2⟩, ⟨1/2⟩⟩

/-- A concrete knob used by witnesses. -/
def exKnob : Knob :=
  { normal_param := exParam
    scalar := 1/100
    wheel_scalar := 1/100
    modifier_scalar := 1/50
    modifier_keys := Modifiers.CTRL
    on_grab := true
    on_release := true
    mod_range_1 := none
    mod_range_2 := none }

/-- A concrete idle knob state used by witnesses. -/
def exKnobState : KnobState :=
  { dragging_status := none
    prev_drag_y := 0
    prev_normal := ⟨1/2⟩
    continuous_normal := 1/2
    pressed_modifiers := Modifiers.empty }

/-- A concrete bounds rectangle used by witnesses. -/
def exBounds : Rect := ⟨0, 0, 100, 100⟩

/-- Knob configuration for the C4 counterexample: a tiny modifier scalar. -/
def cexKnobC4 : Knob := { exKnob with modifier_scalar := 1 / 2 ^ 13 }

/-- Knob state for the C4 counterexample: Ctrl held, mid-drag. -/
def cexStC4 : KnobState :=
  { exKnobState with
    pressed_modifiers := Modifiers.CTRL
    dragging_status := some .Unchanged }

/-- Knob configuration for the C5 counterexample: a nonzero but tiny
wheel scalar, both optional callbacks defined. -/
def cexKnobC5 : Knob := { exKnob with wheel_scalar := 1 / 2 ^ 24 }

/-- Knob for the C2 scenario: committed value 1, default 1/2. -/
def kC2 : Knob := { exKnob with normal_param := ⟨⟨1⟩, ⟨1/2⟩⟩ }

/-- Idle state matching kC2 (accumulator and observation at 1). -/
def stC2 : KnobState := { exKnobState with prev_normal := ⟨1⟩, continuous_normal := 1 }

/-- The value committed by a knob drag-move from the (reconciled) state
`st1` to pointer position `p` (proof abbreviation for the move target). -/
def Knob.dragValue (k : Knob) (st1 : KnobState) (p : Point) : Normal :=
  Normal.clip (st1.continuous_normal -
    (if st1.pressed_modifiers.contains k.modifier_keys then
      (p.y - st1.prev_drag_y) * k.scalar * k.modifier_scalar
    else (p.y - st1.prev_drag_y) * k.scalar))

/-- State of kC2 after the single-press at y = 5. -/
def stC2a : KnobState := { stC2 with dragging_status := some .Unchanged, prev_drag_y := 5 }

/-- State of kC2 after the large upward drag-move to y = -9995. -/
def stC2b : KnobState :=
  { stC2a with prev_drag_y := -9995, continuous_normal := 1, dragging_status := some .Moved }

/-- XY-pad for the C3 counterexample: both values differ from their
defaults, both callbacks defined. -/
def wXY3 : XYPad :=
  { normal_param_x := ⟨⟨3/10⟩, ⟨1/2⟩⟩
    normal_param_y := ⟨⟨3/10⟩, ⟨1/2⟩⟩
    modifier_scalar := 1/50
    modifier_keys := Modifiers.CTRL
    on_grab := true
    on_release := true }

/-- An idle xy-pad state with accumulators at 3/10. -/
def xyStIdle : XYPadState :=
  { dragging_status := none
    prev_drag_x := 0
    prev_drag_y := 0
    continuous_normal_x := 3/10
    continuous_normal_y := 3/10
    pressed_modifiers := Modifiers.empty }

/-- XY-pad for the C6 counterexample: the x value was changed externally
to 9/10 while the idle state's accumulator still reads 3/10. -/
def wXY6 : XYPad := { wXY3 with normal_param_x := ⟨⟨9/10⟩, ⟨1/2⟩⟩ }

/-- `VSlider::new` (v_slider.rs:77-98): the builder's initial
configuration, f32 literals taken at their decimal value. -/
def VSlider.new (normal_param : NormalParam) : VSlider :=
  { normal_param := normal_param
    scalar := 0.9575
    wheel_scalar := 0.01
    modifier_scalar := 0.02
    modifier_keys := Modifiers.CTRL
    on_grab := false
    on_release := false
    mod_range_1 := none
    mod_range_2 := none }

/-- A mid-drag v-slider state used by witnesses. -/
def exVSliderDragSt : VSliderState :=
  { dragging_status := some .Unchanged
    prev_drag_y := 5
    prev_normal := ⟨1/2⟩
    continuous_normal := 1/2
    pressed_modifiers := Modifiers.empty }

/-! ## Helper lemmas -/

/-- `move_virtual_slider` with a delta below epsilon: identity, `Unchanged`. -/
theorem knob_move_of_small (k : Knob) (st : KnobState) (d : F32) (h : |d| < f32Epsilon) :
    k.move_virtual_slider st d = ⟨k, st, .Unchanged⟩ := by
  unfold Knob.move_virtual_slider
  rw [if_pos h]

/-- `move_virtual_slider` with a delta at or above epsilon: modifier
scaling, clip, resync, `Moved`. -/
theorem knob_move_of_large (k : Knob) (st : KnobState) (d : F32) (h : f32Epsilon ≤ |d|) :
    k.move_virtual_slider st d =
      ⟨{ k with normal_param := { k.normal_param with value := Normal.clip (st.continuous_normal -
          (if st.pressed_modifiers.contains k.modifier_keys then d * k.modifier_scalar else d)) } },
        { st with continuous_normal := (Normal.clip (st.continuous_normal -
          (if st.pressed_modifiers.contains k.modifier_keys then d * k.modifier_scalar else d))).val },
        .Moved⟩ := by
  unfold Knob.move_virtual_slider Normal.set_clipped Normal.as_f32
  rw [if_neg (not_lt.mpr h)]

theorem vslider_move_of_small (v : VSlider) (st : VSliderState) (d : F32)
    (h : |d| < f32Epsilon) : v.move_virtual_slider st d = ⟨v, st, .Unchanged⟩ := by
  unfold VSlider.move_virtual_slider
  rw [if_pos h]

theorem vslider_move_of_large (v : VSlider) (st : VSliderState) (d : F32)
    (h : f32Epsilon ≤ |d|) :
    v.move_virtual_slider st d =
      ⟨{ v with normal_param := { v.normal_param with value := Normal.clip (st.continuous_normal -
          (if st.pressed_modifiers.contains v.modifier_keys then d * v.modifier_scalar else d)) } },
        { st with continuous_normal := (Normal.clip (st.continuous_normal -
          (if st.pressed_modifiers.contains v.modifier_keys then d * v.modifier_scalar else d))).val },
        .Moved⟩ := by
  unfold VSlider.move_virtual_slider Normal.set_clipped Normal.as_f32
  rw [if_neg (not_lt.mpr h)]

theorem ramp_move_of_small (w : Ramp) (st : RampState) (d : F32)
    (h : |d| < f32Epsilon) : w.move_virtual_slider st d = ⟨w, st, .Unchanged⟩ := by
  unfold Ramp.move_virtual_slider
  rw [if_pos h]

theorem ramp_move_of_large (w : Ramp) (st : RampState) (d : F32)
    (h : f32Epsilon ≤ |d|) :
    w.move_virtual_slider st d =
      ⟨{ w with normal_param := { w.normal_param with value := Normal.clip (st.continuous_normal -
          (if st.pressed_modifiers.contains w.modifier_keys then d * w.modifier_scalar else d)) } },
        { st with continuous_normal := (Normal.clip (st.continuous_normal -
          (if st.pressed_modifiers.contains w.modifier_keys then d * w.modifier_scalar else d))).val },
        .Moved⟩ := by
  unfold Ramp.move_virtual_slider Normal.set_clipped Normal.as_f32
  rw [if_neg (not_lt.mpr h)]

theorem hslider_move_of_small (hs : HSlider) (st : HSliderState) (d : F32)
    (h : |d| < f32Epsilon) : hs.move_virtual_slider st d = ⟨hs, st, .Unchanged⟩ := by
  unfold HSlider.move_virtual_slider
  rw [if_pos h]

theorem hslider_move_of_large (hs : HSlider) (st : HSliderState) (d : F32)
    (h : f32Epsilon ≤ |d|) :
    hs.move_virtual_slider st d =
      ⟨{ hs with normal_param := { hs.normal_param with value := Normal.clip (st.continuous_normal -
          (if st.pressed_modifiers.contains hs.modifier_keys then d * hs.modifier_scalar else d)) } },
        { st with continuous_normal := (Normal.clip (st.continuous_normal -
          (if st.pressed_modifiers.contains hs.modifier_keys then d * hs.modifier_scalar else d))).val },
        .Moved⟩ := by
  unfold HSlider.move_virtual_slider Normal.set_clipped Normal.as_f32
  rw [if_neg (not_lt.mpr h)]

/-- The reconciliation block never touches the drag status. -/
theorem knob_reconcile_dragging (k : Knob) (st : KnobState) :
    (k.reconcile st).dragging_status = st.dragging_status := by
  unfold Knob.reconcile
  split <;> rfl

/-- The reconciliation block never touches the pressed modifiers. -/
theorem knob_reconcile_modifiers (k : Knob) (st : KnobState) :
    (k.reconcile st).pressed_modifiers = st.pressed_modifiers := by
  unfold Knob.reconcile
  split <;> rfl

theorem vslider_reconcile_dragging (v : VSlider) (st : VSliderState) :
    (v.reconcile st).dragging_status = st.dragging_status := by
  unfold VSlider.reconcile
  split <;> rfl

theorem ramp_reconcile_dragging (w : Ramp) (st : RampState) :
    (w.reconcile st).dragging_status = st.dragging_status := by
  unfold Ramp.reconcile
  split <;> rfl

theorem hslider_reconcile_dragging (hs : HSlider) (st : HSliderState) :
    (hs.reconcile st).dragging_status = st.dragging_status := by
  unfold HSlider.reconcile
  split <;> rfl

/-- When idle and the committed value differs from the last observed one,
the reconciliation block re-syncs the accumulator and the observation. -/
theorem knob_reconcile_of_discontinuity (k : Knob) (st : KnobState)
    (h1 : st.dragging_status = none) (h2 : st.prev_normal ≠ k.normal_param.value) :
    k.reconcile st =
      { st with
        prev_normal := k.normal_param.value
        continuous_normal := k.normal_param.value.as_f32 } := by
  unfold Knob.reconcile
  rw [if_pos ⟨h1, h2⟩]

theorem vslider_reconcile_of_discontinuity (v : VSlider) (st : VSliderState)
    (h1 : st.dragging_status = none) (h2 : st.prev_normal ≠ v.normal_param.value) :
    v.reconcile st =
      { st with
        prev_normal := v.normal_param.value
        continuous_normal := v.normal_param.value.as_f32 } := by
  unfold VSlider.reconcile
  rw [if_pos ⟨h1, h2⟩]

theorem ramp_reconcile_of_discontinuity (w : Ramp) (st : RampState)
    (h1 : st.dragging_status = none) (h2 : st.prev_normal ≠ w.normal_param.value) :
    w.reconcile st =
      { st with
        prev_normal := w.normal_param.value
        continuous_normal := w.normal_param.value.as_f32 } := by
  unfold Ramp.reconcile
  rw [if_pos ⟨h1, h2⟩]

theorem hslider_reconcile_of_discontinuity (hs : HSlider) (st : HSliderState)
    (h1 : st.dragging_status = none) (h2 : st.prev_normal ≠ hs.normal_param.value) :
    hs.reconcile st =
      { st with
        prev_normal := hs.normal_param.value
        continuous_normal := hs.normal_param.value.as_f32 } := by
  unfold HSlider.reconcile
  rw [if_pos ⟨h1, h2⟩]

/-- When the last observed value equals the committed value, the
reconciliation block is a no-op. -/
theorem knob_reconcile_of_eq (k : Knob) (st : KnobState)
    (h2 : st.prev_normal = k.normal_param.value) : k.reconcile st = st := by
  unfold Knob.reconcile
  rw [if_neg]
  intro h
  exact h.2 h2

theorem vslider_reconcile_of_eq (v : VSlider) (st : VSliderState)
    (h2 : st.prev_normal = v.normal_param.value) : v.reconcile st = st := by
  unfold VSlider.reconcile
  rw [if_neg]
  intro h
  exact h.2 h2

theorem ramp_reconcile_of_eq (w : Ramp) (st : RampState)
    (h2 : st.prev_normal = w.normal_param.value) : w.reconcile st = st := by
  unfold Ramp.reconcile
  rw [if_neg]
  intro h
  exact h.2 h2

theorem hslider_reconcile_of_eq (hs : HSlider) (st : HSliderState)
    (h2 : st.prev_normal = hs.normal_param.value) : hs.reconcile st = st := by
  unfold HSlider.reconcile
  rw [if_neg]
  intro h
  exact h.2 h2

/-- When a drag is open, the reconciliation block is a no-op. -/
theorem knob_reconcile_of_some (k : Knob) (st : KnobState) (s : SliderStatus)
    (h : st.dragging_status = some s) : k.reconcile st = st := by
  unfold Knob.reconcile
  rw [if_neg]
  intro hc
  exact Option.noConfusion (h.symm.trans hc.1)

/-- A single-classified press inside the bounds: grab (if defined), open
the drag, record the anchor. -/
theorem knob_pressed_single (k : Knob) (bounds : Rect) (p : Point) (st : KnobState)
    (hover : bounds.contains p) :
    k.on_event bounds (some p) st (.ButtonPressed .Single) =
      ⟨k,
        { k.reconcile st with
          dragging_status := some .Unchanged
          prev_drag_y := p.y },
        (if k.on_grab then [Out.grab] else []), .Captured⟩ := by
  unfold Knob.on_event
  dsimp only
  rw [if_pos hover]

/-- A drag-move whose scaled delta clears the epsilon guard: clip, resync,
change, mark moved. -/
theorem knob_moved_of_large (k : Knob) (bounds : Rect) (cursor : Option Point)
    (st : KnobState) (p : Point) (s : SliderStatus)
    (hdrag : (k.reconcile st).dragging_status = some s)
    (heps : f32Epsilon ≤ |(p.y - (k.reconcile st).prev_drag_y) * k.scalar|) :
    k.on_event bounds cursor st (.CursorMoved p) =
      ⟨{ k with normal_param := { k.normal_param with value := k.dragValue (k.reconcile st) p } },
        { k.reconcile st with prev_drag_y := p.y, continuous_normal := (k.dragValue (k.reconcile st) p).val, dragging_status := some .Moved },
        [.change (k.dragValue (k.reconcile st) p)], .Captured⟩ := by
  unfold Knob.on_event
  dsimp only
  rw [hdrag]
  dsimp only [Option.isSome]
  rw [if_pos rfl]
  rw [knob_move_of_large _ _ _ heps]
  dsimp only [SliderStatus.was_moved]
  rw [if_pos rfl]
  unfold Knob.dragValue
  rfl

/-- A pointer-up that ends an open drag: release exactly when on_grab is
defined or the drag saw a movement (and on_release is defined). -/
theorem knob_released_of_drag (k : Knob) (bounds : Rect) (cursor : Option Point)
    (st : KnobState) (s : SliderStatus)
    (hdrag : (k.reconcile st).dragging_status = some s) :
    k.on_event bounds cursor st .ButtonReleased =
      ⟨k, { k.reconcile st with dragging_status := none },
        (if k.on_grab = true ∨ s.was_moved = true then
          (if k.on_release then [Out.release] else []) else []),
        .Captured⟩ := by
  unfold Knob.on_event
  dsimp only
  rw [hdrag]
  dsimp only
  by_cases hc : k.on_grab = true ∨ SliderStatus.was_moved s = true
  · rw [if_pos hc, if_pos hc]
  · rw [if_neg hc, if_neg hc]

/-- A zero-width rectangle contains no point. -/
theorem Rect.not_contains_of_width_zero (b : Rect) (p : Point) (hw : b.width = 0) :
    ¬b.contains p := by
  rintro ⟨h1, h2, h3, h4⟩
  rw [hw, add_zero] at h2
  exact absurd h2 (not_lt.mpr h1)

/-- Nothing is over a zero-width rectangle. -/
theorem isOver_of_width_zero (cursor : Option Point) (b : Rect) (hw : b.width = 0) :
    ¬isOver cursor b := by
  cases cursor with
  | none => exact fun h => h
  | some p => exact Rect.not_contains_of_width_zero b p hw

/-- A zero-size bounds has a zero square interaction region. -/
theorem bounds_size_zero (b : Rect) (hw : b.width = 0) (hh : b.height = 0) :
    XYPad.bounds_size b = 0 := by
  unfold XYPad.bounds_size
  split <;> assumption

/-- `move_virtual_slider` never touches the drag status (knob). -/
theorem knob_move_dragging (k : Knob) (st : KnobState) (d : F32) :
    (k.move_virtual_slider st d).state.dragging_status = st.dragging_status := by
  unfold Knob.move_virtual_slider
  split <;> rfl

/-- `move_virtual_slider` never touches the drag status (ramp). -/
theorem ramp_move_dragging (w : Ramp) (st : RampState) (d : F32) :
    (w.move_virtual_slider st d).state.dragging_status = st.dragging_status := by
  unfold Ramp.move_virtual_slider
  split <;> rfl

/-- The reconciliation block is idempotent (knob). -/
theorem knob_reconcile_idem (k : Knob) (st : KnobState) :
    k.reconcile (k.reconcile st) = k.reconcile st := by
  by_cases h : st.dragging_status = none ∧ st.prev_normal ≠ k.normal_param.value
  · have e : k.reconcile st =
        { st with prev_normal := k.normal_param.value, continuous_normal := k.normal_param.value.as_f32 } :=
      knob_reconcile_of_discontinuity k st h.1 h.2
    rw [e]
    exact knob_reconcile_of_eq _ _ rfl
  · have e : k.reconcile st = st := by
      unfold Knob.reconcile
      rw [if_neg h]
    rw [e]
    exact e

theorem vslider_reconcile_idem (v : VSlider) (st : VSliderState) :
    v.reconcile (v.reconcile st) = v.reconcile st := by
  by_cases h : st.dragging_status = none ∧ st.prev_normal ≠ v.normal_param.value
  · have e : v.reconcile st =
        { st with prev_normal := v.normal_param.value, continuous_normal := v.normal_param.value.as_f32 } :=
      vslider_reconcile_of_discontinuity v st h.1 h.2
    rw [e]
    exact vslider_reconcile_of_eq _ _ rfl
  · have e : v.reconcile st = st := by
      unfold VSlider.reconcile
      rw [if_neg h]
    rw [e]
    exact e

theorem ramp_reconcile_idem (w : Ramp) (st : RampState) :
    w.reconcile (w.reconcile st) = w.reconcile st := by
  by_cases h : st.dragging_status = none ∧ st.prev_normal ≠ w.normal_param.value
  · have e : w.reconcile st =
        { st with prev_normal := w.normal_param.value, continuous_normal := w.normal_param.value.as_f32 } :=
      ramp_reconcile_of_discontinuity w st h.1 h.2
    rw [e]
    exact ramp_reconcile_of_eq _ _ rfl
  · have e : w.reconcile st = st := by
      unfold Ramp.reconcile
      rw [if_neg h]
    rw [e]
    exact e

theorem hslider_reconcile_idem (hs : HSlider) (st : HSliderState) :
    hs.reconcile (hs.reconcile st) = hs.reconcile st := by
  by_cases h : st.dragging_status = none ∧ st.prev_normal ≠ hs.normal_param.value
  · have e : hs.reconcile st =
        { st with prev_normal := hs.normal_param.value, continuous_normal := hs.normal_param.value.as_f32 } :=
      hslider_reconcile_of_discontinuity hs st h.1 h.2
    rw [e]
    exact hslider_reconcile_of_eq _ _ rfl
  · have e : hs.reconcile st = st := by
      unfold HSlider.reconcile
      rw [if_neg h]
    rw [e]
    exact e

/-- Every knob event is processed against the reconciled state. -/
theorem knob_on_event_reconciled (k : Knob) (bounds : Rect) (cursor : Option Point)
    (st : KnobState) (ev : WidgetEvent) :
    k.on_event bounds cursor st ev = k.on_event bounds cursor (k.reconcile st) ev := by
  unfold Knob.on_event
  rw [knob_reconcile_idem]

theorem vslider_on_event_reconciled (v : VSlider) (bounds : Rect) (cursor : Option Point)
    (st : VSliderState) (ev : WidgetEvent) :
    v.on_event bounds cursor st ev = v.on_event bounds cursor (v.reconcile st) ev := by
  unfold VSlider.on_event
  rw [vslider_reconcile_idem]

theorem ramp_on_event_reconciled (w : Ramp) (bounds : Rect) (cursor : Option Point)
    (st : RampState) (ev : WidgetEvent) :
    w.on_event bounds cursor st ev = w.on_event bounds cursor (w.reconcile st) ev := by
  unfold Ramp.on_event
  rw [ramp_reconcile_idem]

theorem hslider_on_event_reconciled (hs : HSlider) (bounds : Rect) (cursor : Option Point)
    (st : HSliderState) (ev : WidgetEvent) :
    hs.on_event bounds cursor st ev = hs.on_event bounds cursor (hs.reconcile st) ev := by
  unfold HSlider.on_event
  rw [hslider_reconcile_idem]

/-- A multi-classified press inside the bounds (knob): the
reset-to-default path. -/
theorem knob_pressed_multi (k : Knob) (bounds : Rect) (p : Point) (st : KnobState)
    (hover : bounds.contains p) :
    k.on_event bounds (some p) st (.ButtonPressed .Multi) =
      (if k.normal_param.value ≠ k.normal_param.default then
        (⟨{ k with normal_param := { k.normal_param with value := k.normal_param.default } },
          { k.reconcile st with dragging_status := none },
          (if (k.reconcile st).dragging_status = none ∧ k.on_grab then [Out.grab] else []) ++
            [.change k.normal_param.default] ++
            (if k.on_release then [Out.release] else []), .Captured⟩ : StepResult Knob KnobState)
      else if (k.reconcile st).dragging_status.isSome then
        ⟨k, { k.reconcile st with dragging_status := none },
          (if k.on_release then [Out.release] else []), .Captured⟩
      else ⟨k, { k.reconcile st with dragging_status := none }, [], .Captured⟩) := by
  unfold Knob.on_event
  dsimp only
  rw [if_pos hover]

/-- A multi-classified press inside the bounds (v-slider): the
reset-to-default path. -/
theorem vslider_pressed_multi (k : VSlider) (bounds : Rect) (p : Point) (st : VSliderState)
    (hover : bounds.contains p) :
    k.on_event bounds (some p) st (.ButtonPressed .Multi) =
      (if k.normal_param.value ≠ k.normal_param.default then
        (⟨{ k with normal_param := { k.normal_param with value := k.normal_param.default } },
          { k.reconcile st with dragging_status := none },
          (if (k.reconcile st).dragging_status = none ∧ k.on_grab then [Out.grab] else []) ++
            [.change k.normal_param.default] ++
            (if k.on_release then [Out.release] else []), .Captured⟩ : StepResult VSlider VSliderState)
      else if (k.reconcile st).dragging_status.isSome then
        ⟨k, { k.reconcile st with dragging_status := none },
          (if k.on_release then [Out.release] else []), .Captured⟩
      else ⟨k, { k.reconcile st with dragging_status := none }, [], .Captured⟩) := by
  unfold VSlider.on_event
  dsimp only
  rw [if_pos hover]

/-- A pointer-up that ends an open drag (v-slider). -/
theorem vslider_released_of_drag2 (k : VSlider) (bounds : Rect) (cursor : Option Point)
    (st : VSliderState) (s : SliderStatus)
    (hdrag : (k.reconcile st).dragging_status = some s) :
    k.on_event bounds cursor st .ButtonReleased =
      ⟨k, { k.reconcile st with dragging_status := none },
        (if k.on_grab = true ∨ s.was_moved = true then
          (if k.on_release then [Out.release] else []) else []),
        .Captured⟩ := by
  unfold VSlider.on_event
  dsimp only
  rw [hdrag]
  dsimp only
  by_cases hc : k.on_grab = true ∨ SliderStatus.was_moved s = true
  · rw [if_pos hc, if_pos hc]
  · rw [if_neg hc, if_neg hc]

/-- A multi-classified press inside the bounds (ramp): the
reset-to-default path. -/
theorem ramp_pressed_multi (k : Ramp) (bounds : Rect) (p : Point) (st : RampState)
    (hover : bounds.contains p) :
    k.on_event bounds (some p) st (.ButtonPressed .Multi) =
      (if k.normal_param.value ≠ k.normal_param.default then
        (⟨{ k with normal_param := { k.normal_param with value := k.normal_param.default } },
          { k.reconcile st with dragging_status := none },
          (if (k.reconcile st).dragging_status = none ∧ k.on_grab then [Out.grab] else []) ++
            [.change k.normal_param.default] ++
            (if k.on_release then [Out.release] else []), .Captured⟩ : StepResult Ramp RampState)
      else if (k.reconcile st).dragging_status.isSome then
        ⟨k, { k.reconcile st with dragging_status := none },
          (if k.on_release then [Out.release] else []), .Captured⟩
      else ⟨k, { k.reconcile st with dragging_status := none }, [], .Captured⟩) := by
  unfold Ramp.on_event
  dsimp only
  rw [if_pos hover]

/-- A pointer-up that ends an open drag (ramp). -/
theorem ramp_released_of_drag2 (k : Ramp) (bounds : Rect) (cursor : Option Point)
    (st : RampState) (s : SliderStatus)
    (hdrag : (k.reconcile st).dragging_status = some s) :
    k.on_event bounds cursor st .ButtonReleased =
      ⟨k, { k.reconcile st with dragging_status := none },
        (if k.on_grab = true ∨ s.was_moved = true then
          (if k.on_release then [Out.release] else []) else []),
        .Captured⟩ := by
  unfold Ramp.on_event
  dsimp only
  rw [hdrag]
  dsimp only
  by_cases hc : k.on_grab = true ∨ SliderStatus.was_moved s = true
  · rw [if_pos hc, if_pos hc]
  · rw [if_neg hc, if_neg hc]

/-- A multi-classified press inside the bounds (h-slider, spec-modelled): the
reset-to-default path. -/
theorem hslider_pressed_multi (k : HSlider) (bounds : Rect) (p : Point) (st : HSliderState)
    (hover : bounds.contains p) :
    k.on_event bounds (some p) st (.ButtonPressed .Multi) =
      (if k.normal_param.value ≠ k.normal_param.default then
        (⟨{ k with normal_param := { k.normal_param with value := k.normal_param.default } },
          { k.reconcile st with dragging_status := none },
          (if (k.reconcile st).dragging_status = none ∧ k.on_grab then [Out.grab] else []) ++
            [.change k.normal_param.default] ++
            (if k.on_release then [Out.release] else []), .Captured⟩ : StepResult HSlider HSliderState)
      else if (k.reconcile st).dragging_status.isSome then
        ⟨k, { k.reconcile st with dragging_status := none },
          (if k.on_release then [Out.release] else []), .Captured⟩
      else ⟨k, { k.reconcile st with dragging_status := none }, [], .Captured⟩) := by
  unfold HSlider.on_event
  dsimp only
  rw [if_pos hover]

/-- A pointer-up that ends an open drag (h-slider, spec-modelled). -/
theorem hslider_released_of_drag2 (k : HSlider) (bounds : Rect) (cursor : Option Point)
    (st : HSliderState) (s : SliderStatus)
    (hdrag : (k.reconcile st).dragging_status = some s) :
    k.on_event bounds cursor st .ButtonReleased =
      ⟨k, { k.reconcile st with dragging_status := none },
        (if k.on_grab = true ∨ s.was_moved = true then
          (if k.on_release then [Out.release] else []) else []),
        .Captured⟩ := by
  unfold HSlider.on_event
  dsimp only
  rw [hdrag]
  dsimp only
  by_cases hc : k.on_grab = true ∨ SliderStatus.was_moved s = true
  · rw [if_pos hc, if_pos hc]
  · rw [if_neg hc, if_neg hc]

/-- A multi-classified press inside the bounds (xy-pad): the reset path —
note there is no grab synthesis and both axes must differ from their
defaults for the reset to happen. -/
theorem xypad_pressed_multi (w : XYPad) (bounds : Rect) (p : Point) (st : XYPadState)
    (hover : bounds.contains p) :
    w.on_event bounds (some p) st (.ButtonPressed .Multi) =
      (if w.normal_param_x.value ≠ w.normal_param_x.default ∧
          w.normal_param_y.value ≠ w.normal_param_y.default then
        (⟨{ w with normal_param_x := { w.normal_param_x with value := w.normal_param_x.default }, normal_param_y := { w.normal_param_y with value := w.normal_param_y.default } },
          { st with dragging_status := none, continuous_normal_x := w.normal_param_x.default.as_f32, continuous_normal_y := w.normal_param_y.default.as_f32 },
          [.changeXY w.normal_param_x.default w.normal_param_y.default] ++
            (if w.on_release then [Out.release] else []), .Captured⟩ : StepResult XYPad XYPadState)
      else if st.dragging_status.isSome then
        ⟨w, { st with dragging_status := none },
          (if w.on_release then [Out.release] else []), .Captured⟩
      else ⟨w, { st with dragging_status := none }, [], .Captured⟩) := by
  unfold XYPad.on_event
  dsimp only
  rw [if_pos hover]

/-- A single-classified press inside the xy-pad's bounds: grab (if
defined), open the drag, jump both values to the absolute cursor position
normalized against the square region, and fire exactly one change. -/
theorem xypad_pressed_single (w : XYPad) (bounds : Rect) (p : Point) (st : XYPadState)
    (hover : bounds.contains p) :
    w.on_event bounds (some p) st (.ButtonPressed .Single) =
      ⟨{ w with normal_param_x := { w.normal_param_x with value := Normal.clip ((p.x - bounds.x) / XYPad.bounds_size bounds) }, normal_param_y := { w.normal_param_y with value := Normal.clip (1 - (p.y - bounds.y) / XYPad.bounds_size bounds) } },
        { st with dragging_status := some .Unchanged, prev_drag_x := p.x, prev_drag_y := p.y, continuous_normal_x := (p.x - bounds.x) / XYPad.bounds_size bounds, continuous_normal_y := 1 - (p.y - bounds.y) / XYPad.bounds_size bounds },
        (if w.on_grab then [Out.grab] else []) ++
          [.changeXY (Normal.clip ((p.x - bounds.x) / XYPad.bounds_size bounds))
            (Normal.clip (1 - (p.y - bounds.y) / XYPad.bounds_size bounds))],
        .Captured⟩ := by
  unfold XYPad.on_event XYPad.bounds_size Normal.set_clipped
  dsimp only
  rw [if_pos hover]

/-- A pointer-up that ends an open xy-pad drag: release per the grab /
moved rule, then re-sync both accumulators to the committed values. -/
theorem xypad_released_of_drag (w : XYPad) (bounds : Rect) (cursor : Option Point)
    (st : XYPadState) (s : SliderStatus)
    (hdrag : st.dragging_status = some s) :
    w.on_event bounds cursor st .ButtonReleased =
      ⟨w, { st with dragging_status := none, continuous_normal_x := w.normal_param_x.value.as_f32, continuous_normal_y := w.normal_param_y.value.as_f32 },
        (if w.on_grab = true ∨ s.was_moved = true then
          (if w.on_release then [Out.release] else []) else []),
        .Captured⟩ := by
  unfold XYPad.on_event
  dsimp only
  rw [hdrag]

set_option maxHeartbeats 2000000 in
/-- If a knob step leaves the drag marked Moved, either it was already
Moved or a change was published in that step. -/
theorem knob_step_moved_tracking (k : Knob) (bounds : Rect) (cursor : Option Point)
    (st : KnobState) (ev : WidgetEvent)
    (h : (k.on_event bounds cursor st ev).state.dragging_status = some SliderStatus.Moved) :
    st.dragging_status = some SliderStatus.Moved ∨
      ∃ v, Out.change v ∈ (k.on_event bounds cursor st ev).outs := by
  rw [← knob_reconcile_dragging k st]
  revert h
  unfold Knob.on_event
  cases ev <;> dsimp only <;> repeat' (split <;> (try dsimp only))
  all_goals intro h
  all_goals
    first
      | exact Or.inl h
      | exact Or.inr ⟨_, List.mem_singleton_self _⟩
      | exact Or.inr ⟨_, List.mem_append_left _
          (List.mem_append_right _ (List.mem_singleton_self _))⟩
      | exact absurd h (fun hcon => SliderStatus.noConfusion (Option.some.inj hcon))
      | exact absurd h (fun hcon => Option.noConfusion hcon)
      | (rw [knob_move_dragging] at h; exact Or.inl h)
      | simp_all

set_option maxHeartbeats 2000000 in
/-- If a ramp step leaves the drag marked Moved, either it was already
Moved or a change was published in that step. -/
theorem ramp_step_moved_tracking (w : Ramp) (bounds : Rect) (cursor : Option Point)
    (st : RampState) (ev : WidgetEvent)
    (h : (w.on_event bounds cursor st ev).state.dragging_status = some SliderStatus.Moved) :
    st.dragging_status = some SliderStatus.Moved ∨
      ∃ v, Out.change v ∈ (w.on_event bounds cursor st ev).outs := by
  rw [← ramp_reconcile_dragging w st]
  revert h
  unfold Ramp.on_event
  cases ev <;> dsimp only <;> repeat' (split <;> (try dsimp only))
  all_goals intro h
  all_goals
    first
      | exact Or.inl h
      | exact Or.inr ⟨_, List.mem_singleton_self _⟩
      | exact Or.inr ⟨_, List.mem_append_left _
          (List.mem_append_right _ (List.mem_singleton_self _))⟩
      | exact absurd h (fun hcon => SliderStatus.noConfusion (Option.some.inj hcon))
      | exact absurd h (fun hcon => Option.noConfusion hcon)
      | (rw [ramp_move_dragging] at h; exact Or.inl h)
      | simp_all

theorem Normal.clip_nonneg (r : F32) : 0 ≤ (Normal.clip r).val := by
  unfold Normal.clip
  dsimp only
  split_ifs with h1 h2
  · exact le_refl 0
  · exact zero_le_one
  · exact le_of_not_lt h1

theorem Normal.clip_le_one (r : F32) : (Normal.clip r).val ≤ 1 := by
  unfold Normal.clip
  dsimp only
  split_ifs with h1 h2
  · exact zero_le_one
  · exact le_refl 1
  · exact le_of_not_lt h2

/-- The committed value and the default both lie in the unit interval. -/
def NormalParam.InRange (p : NormalParam) : Prop :=
  0 ≤ p.value.val ∧ p.value.val ≤ 1 ∧ 0 ≤ p.default.val ∧ p.default.val ≤ 1

instance (p : NormalParam) : Decidable p.InRange := by
  unfold NormalParam.InRange; infer_instance

/-- `move_virtual_slider` leaves the default untouched and either leaves
the value or replaces it with a clipped one. -/
theorem knob_move_shape (k : Knob) (st : KnobState) (d : F32) :
    (k.move_virtual_slider st d).widget.normal_param.default = k.normal_param.default ∧
      ((k.move_virtual_slider st d).widget.normal_param.value = k.normal_param.value ∨
        ∃ r, (k.move_virtual_slider st d).widget.normal_param.value = Normal.clip r) := by
  unfold Knob.move_virtual_slider Normal.set_clipped
  split
  · exact ⟨rfl, Or.inl rfl⟩
  · exact ⟨rfl, Or.inr ⟨_, rfl⟩⟩

set_option maxHeartbeats 2000000 in
/-- After any knob event, the default is untouched and the committed value
is the old value, a clipped value, or the default. -/
theorem knob_on_event_value_shape (k : Knob) (bounds : Rect) (cursor : Option Point)
    (st : KnobState) (ev : WidgetEvent) :
    (k.on_event bounds cursor st ev).widget.normal_param.default = k.normal_param.default ∧
      ((k.on_event bounds cursor st ev).widget.normal_param.value = k.normal_param.value ∨
        (∃ r, (k.on_event bounds cursor st ev).widget.normal_param.value = Normal.clip r) ∨
        (k.on_event bounds cursor st ev).widget.normal_param.value = k.normal_param.default) := by
  unfold Knob.on_event Knob.reconcile
  cases ev <;> dsimp only <;> repeat' (split <;> (try dsimp only))
  all_goals
    first
      | exact ⟨rfl, Or.inl rfl⟩
      | exact ⟨rfl, Or.inr (Or.inr rfl)⟩
      | (refine ⟨(knob_move_shape _ _ _).1, ?_⟩
         rcases (knob_move_shape _ _ _).2 with h | ⟨r, h⟩
         exacts [Or.inl h, Or.inr (Or.inl ⟨r, h⟩)])

theorem knob_step_param_in_range (k : Knob) (bounds : Rect) (cursor : Option Point)
    (st : KnobState) (ev : WidgetEvent) (h : k.normal_param.InRange) :
    ((k.on_event bounds cursor st ev).widget.normal_param).InRange := by
  obtain ⟨hd, hv⟩ := knob_on_event_value_shape k bounds cursor st ev
  obtain ⟨h1, h2, h3, h4⟩ := h
  have hval : 0 ≤ (k.on_event bounds cursor st ev).widget.normal_param.value.val ∧
      (k.on_event bounds cursor st ev).widget.normal_param.value.val ≤ 1 := by
    rcases hv with h5 | ⟨r, h5⟩ | h5 <;> rw [h5]
    · exact ⟨h1, h2⟩
    · exact ⟨Normal.clip_nonneg r, Normal.clip_le_one r⟩
    · exact ⟨h3, h4⟩
  exact ⟨hval.1, hval.2, by rw [hd]; exact h3, by rw [hd]; exact h4⟩

theorem vslider_move_shape (v : VSlider) (st : VSliderState) (d : F32) :
    (v.move_virtual_slider st d).widget.normal_param.default = v.normal_param.default ∧
      ((v.move_virtual_slider st d).widget.normal_param.value = v.normal_param.value ∨
        ∃ r, (v.move_virtual_slider st d).widget.normal_param.value = Normal.clip r) := by
  unfold VSlider.move_virtual_slider Normal.set_clipped
  split
  · exact ⟨rfl, Or.inl rfl⟩
  · exact ⟨rfl, Or.inr ⟨_, rfl⟩⟩

set_option maxHeartbeats 2000000 in
/-- After any v-slider event, the default is untouched and the committed
value is the old value, a clipped value, or the default. -/
theorem vslider_on_event_value_shape (v : VSlider) (bounds : Rect) (cursor : Option Point)
    (st : VSliderState) (ev : WidgetEvent) :
    (v.on_event bounds cursor st ev).widget.normal_param.default = v.normal_param.default ∧
      ((v.on_event bounds cursor st ev).widget.normal_param.value = v.normal_param.value ∨
        (∃ r, (v.on_event bounds cursor st ev).widget.normal_param.value = Normal.clip r) ∨
        (v.on_event bounds cursor st ev).widget.normal_param.value = v.normal_param.default) := by
  unfold VSlider.on_event VSlider.reconcile
  cases ev <;> dsimp only <;> repeat' (split <;> (try dsimp only))
  all_goals
    first
      | exact ⟨rfl, Or.inl rfl⟩
      | exact ⟨rfl, Or.inr (Or.inr rfl)⟩
      | (refine ⟨(vslider_move_shape _ _ _).1, ?_⟩
         rcases (vslider_move_shape _ _ _).2 with h | ⟨r, h⟩
         exacts [Or.inl h, Or.inr (Or.inl ⟨r, h⟩)])

theorem vslider_step_param_in_range (v : VSlider) (bounds : Rect) (cursor : Option Point)
    (st : VSliderState) (ev : WidgetEvent) (h : v.normal_param.InRange) :
    ((v.on_event bounds cursor st ev).widget.normal_param).InRange := by
  obtain ⟨hd, hv⟩ := vslider_on_event_value_shape v bounds cursor st ev
  obtain ⟨h1, h2, h3, h4⟩ := h
  have hval : 0 ≤ (v.on_event bounds cursor st ev).widget.normal_param.value.val ∧
      (v.on_event bounds cursor st ev).widget.normal_param.value.val ≤ 1 := by
    rcases hv with h5 | ⟨r, h5⟩ | h5 <;> rw [h5]
    · exact ⟨h1, h2⟩
    · exact ⟨Normal.clip_nonneg r, Normal.clip_le_one r⟩
    · exact ⟨h3, h4⟩
  exact ⟨hval.1, hval.2, by rw [hd]; exact h3, by rw [hd]; exact h4⟩

theorem ramp_move_shape (w : Ramp) (st : RampState) (d : F32) :
    (w.move_virtual_slider st d).widget.normal_param.default = w.normal_param.default ∧
      ((w.move_virtual_slider st d).widget.normal_param.value = w.normal_param.value ∨
        ∃ r, (w.move_virtual_slider st d).widget.normal_param.value = Normal.clip r) := by
  unfold Ramp.move_virtual_slider Normal.set_clipped
  split
  · exact ⟨rfl, Or.inl rfl⟩
  · exact ⟨rfl, Or.inr ⟨_, rfl⟩⟩

set_option maxHeartbeats 2000000 in
/-- After any ramp event, the default is untouched and the committed value
is the old value, a clipped value, or the default. -/
theorem ramp_on_event_value_shape (w : Ramp) (bounds : Rect) (cursor : Option Point)
    (st : RampState) (ev : WidgetEvent) :
    (w.on_event bounds cursor st ev).widget.normal_param.default = w.normal_param.default ∧
      ((w.on_event bounds cursor st ev).widget.normal_param.value = w.normal_param.value ∨
        (∃ r, (w.on_event bounds cursor st ev).widget.normal_param.value = Normal.clip r) ∨
        (w.on_event bounds cursor st ev).widget.normal_param.value = w.normal_param.default) := by
  unfold Ramp.on_event Ramp.reconcile
  cases ev <;> dsimp only <;> repeat' (split <;> (try dsimp only))
  all_goals
    first
      | exact ⟨rfl, Or.inl rfl⟩
      | exact ⟨rfl, Or.inr (Or.inr rfl)⟩
      | (refine ⟨(ramp_move_shape _ _ _).1, ?_⟩
         rcases (ramp_move_shape _ _ _).2 with h | ⟨r, h⟩
         exacts [Or.inl h, Or.inr (Or.inl ⟨r, h⟩)])

theorem ramp_step_param_in_range (w : Ramp) (bounds : Rect) (cursor : Option Point)
    (st : RampState) (ev : WidgetEvent) (h : w.normal_param.InRange) :
    ((w.on_event bounds cursor st ev).widget.normal_param).InRange := by
  obtain ⟨hd, hv⟩ := ramp_on_event_value_shape w bounds cursor st ev
  obtain ⟨h1, h2, h3, h4⟩ := h
  have hval : 0 ≤ (w.on_event bounds cursor st ev).widget.normal_param.value.val ∧
      (w.on_event bounds cursor st ev).widget.normal_param.value.val ≤ 1 := by
    rcases hv with h5 | ⟨r, h5⟩ | h5 <;> rw [h5]
    · exact ⟨h1, h2⟩
    · exact ⟨Normal.clip_nonneg r, Normal.clip_le_one r⟩
    · exact ⟨h3, h4⟩
  exact ⟨hval.1, hval.2, by rw [hd]; exact h3, by rw [hd]; exact h4⟩

theorem hslider_move_shape (h : HSlider) (st : HSliderState) (d : F32) :
    (h.move_virtual_slider st d).widget.normal_param.default = h.normal_param.default ∧
      ((h.move_virtual_slider st d).widget.normal_param.value = h.normal_param.value ∨
        ∃ r, (h.move_virtual_slider st d).widget.normal_param.value = Normal.clip r) := by
  unfold HSlider.move_virtual_slider Normal.set_clipped
  split
  · exact ⟨rfl, Or.inl rfl⟩
  · exact ⟨rfl, Or.inr ⟨_, rfl⟩⟩

set_option maxHeartbeats 2000000 in
/-- After any h-slider event (spec-modelled handler), the default is
untouched and the committed value is the old value, a clipped value, or
the default. -/
theorem hslider_on_event_value_shape (h : HSlider) (bounds : Rect) (cursor : Option Point)
    (st : HSliderState) (ev : WidgetEvent) :
    (h.on_event bounds cursor st ev).widget.normal_param.default = h.normal_param.default ∧
      ((h.on_event bounds cursor st ev).widget.normal_param.value = h.normal_param.value ∨
        (∃ r, (h.on_event bounds cursor st ev).widget.normal_param.value = Normal.clip r) ∨
        (h.on_event bounds cursor st ev).widget.normal_param.value = h.normal_param.default) := by
  unfold HSlider.on_event HSlider.reconcile
  cases ev <;> dsimp only <;> repeat' (split <;> (try dsimp only))
  all_goals
    first
      | exact ⟨rfl, Or.inl rfl⟩
      | exact ⟨rfl, Or.inr (Or.inr rfl)⟩
      | (refine ⟨(hslider_move_shape _ _ _).1, ?_⟩
         rcases (hslider_move_shape _ _ _).2 with hm | ⟨r, hm⟩
         exacts [Or.inl hm, Or.inr (Or.inl ⟨r, hm⟩)])

theorem hslider_step_param_in_range (h : HSlider) (bounds : Rect) (cursor : Option Point)
    (st : HSliderState) (ev : WidgetEvent) (hIn : h.normal_param.InRange) :
    ((h.on_event bounds cursor st ev).widget.normal_param).InRange := by
  obtain ⟨hd, hv⟩ := hslider_on_event_value_shape h bounds cursor st ev
  obtain ⟨h1, h2, h3, h4⟩ := hIn
  have hval : 0 ≤ (h.on_event bounds cursor st ev).widget.normal_param.value.val ∧
      (h.on_event bounds cursor st ev).widget.normal_param.value.val ≤ 1 := by
    rcases hv with h5 | ⟨r, h5⟩ | h5 <;> rw [h5]
    · exact ⟨h1, h2⟩
    · exact ⟨Normal.clip_nonneg r, Normal.clip_le_one r⟩
    · exact ⟨h3, h4⟩
  exact ⟨hval.1, hval.2, by rw [hd]; exact h3, by rw [hd]; exact h4⟩

set_option maxHeartbeats 2000000 in
/-- After any xy-pad event, both defaults are untouched and each committed
value is the old value, a clipped value, or the default of its axis. -/
theorem xypad_on_event_value_shape (w : XYPad) (bounds : Rect) (cursor : Option Point)
    (st : XYPadState) (ev : WidgetEvent) :
    ((w.on_event bounds cursor st ev).widget.normal_param_x.default = w.normal_param_x.default ∧
      (w.on_event bounds cursor st ev).widget.normal_param_y.default = w.normal_param_y.default) ∧
      ((w.on_event bounds cursor st ev).widget.normal_param_x.value = w.normal_param_x.value ∨
        (∃ r, (w.on_event bounds cursor st ev).widget.normal_param_x.value = Normal.clip r) ∨
        (w.on_event bounds cursor st ev).widget.normal_param_x.value = w.normal_param_x.default) ∧
      ((w.on_event bounds cursor st ev).widget.normal_param_y.value = w.normal_param_y.value ∨
        (∃ r, (w.on_event bounds cursor st ev).widget.normal_param_y.value = Normal.clip r) ∨
        (w.on_event bounds cursor st ev).widget.normal_param_y.value = w.normal_param_y.default) := by
  unfold XYPad.on_event Normal.set_clipped
  cases ev <;> dsimp only <;> repeat' (split <;> (try dsimp only))
  all_goals
    first
      | exact ⟨⟨rfl, rfl⟩, Or.inl rfl, Or.inl rfl⟩
      | exact ⟨⟨rfl, rfl⟩, Or.inr (Or.inl ⟨_, rfl⟩), Or.inr (Or.inl ⟨_, rfl⟩)⟩
      | exact ⟨⟨rfl, rfl⟩, Or.inr (Or.inr rfl), Or.inr (Or.inr rfl)⟩

theorem xypad_step_param_in_range (w : XYPad) (bounds : Rect) (cursor : Option Point)
    (st : XYPadState) (ev : WidgetEvent)
    (hx : w.normal_param_x.InRange) (hy : w.normal_param_y.InRange) :
    ((w.on_event bounds cursor st ev).widget.normal_param_x).InRange ∧
      ((w.on_event bounds cursor st ev).widget.normal_param_y).InRange := by
  obtain ⟨⟨hdx, hdy⟩, hvx, hvy⟩ := xypad_on_event_value_shape w bounds cursor st ev
  obtain ⟨hx1, hx2, hx3, hx4⟩ := hx
  obtain ⟨hy1, hy2, hy3, hy4⟩ := hy
  constructor
  · have hval : 0 ≤ (w.on_event bounds cursor st ev).widget.normal_param_x.value.val ∧
        (w.on_event bounds cursor st ev).widget.normal_param_x.value.val ≤ 1 := by
      rcases hvx with h5 | ⟨r, h5⟩ | h5 <;> rw [h5]
      · exact ⟨hx1, hx2⟩
      · exact ⟨Normal.clip_nonneg r, Normal.clip_le_one r⟩
      · exact ⟨hx3, hx4⟩
    exact ⟨hval.1, hval.2, by rw [hdx]; exact hx3, by rw [hdx]; exact hx4⟩
  · have hval : 0 ≤ (w.on_event bounds cursor st ev).widget.normal_param_y.value.val ∧
        (w.on_event bounds cursor st ev).widget.normal_param_y.value.val ≤ 1 := by
      rcases hvy with h5 | ⟨r, h5⟩ | h5 <;> rw [h5]
      · exact ⟨hy1, hy2⟩
      · exact ⟨Normal.clip_nonneg r, Normal.clip_le_one r⟩
      · exact ⟨hy3, hy4⟩
    exact ⟨hval.1, hval.2, by rw [hdy]; exact hy3, by rw [hdy]; exact hy4⟩

theorem knob_run_in_range (inputs : List HostInput) (k : Knob) (st : KnobState)
    (h : k.normal_param.InRange) : ((Knob.run k st inputs).1.normal_param).InRange := by
  induction inputs generalizing k st with
  | nil => exact h
  | cons i rest ih =>
    exact ih _ _ (knob_step_param_in_range k i.bounds i.cursor st i.event h)

theorem vslider_run_in_range (inputs : List HostInput) (v : VSlider) (st : VSliderState)
    (h : v.normal_param.InRange) : ((VSlider.run v st inputs).1.normal_param).InRange := by
  induction inputs generalizing v st with
  | nil => exact h
  | cons i rest ih =>
    exact ih _ _ (vslider_step_param_in_range v i.bounds i.cursor st i.event h)

theorem ramp_run_in_range (inputs : List HostInput) (w : Ramp) (st : RampState)
    (h : w.normal_param.InRange) : ((Ramp.run w st inputs).1.normal_param).InRange := by
  induction inputs generalizing w st with
  | nil => exact h
  | cons i rest ih =>
    exact ih _ _ (ramp_step_param_in_range w i.bounds i.cursor st i.event h)

theorem hslider_run_in_range (inputs : List HostInput) (h : HSlider) (st : HSliderState)
    (hIn : h.normal_param.InRange) : ((HSlider.run h st inputs).1.normal_param).InRange := by
  induction inputs generalizing h st with
  | nil => exact hIn
  | cons i rest ih =>
    exact ih _ _ (hslider_step_param_in_range h i.bounds i.cursor st i.event hIn)

theorem xypad_run_in_range (inputs : List HostInput) (w : XYPad) (st : XYPadState)
    (hx : w.normal_param_x.InRange) (hy : w.normal_param_y.InRange) :
    ((XYPad.run w st inputs).1.normal_param_x).InRange ∧
      ((XYPad.run w st inputs).1.normal_param_y).InRange := by
  induction inputs generalizing w st with
  | nil => exact ⟨hx, hy⟩
  | cons i rest ih =>
    obtain ⟨hx2, hy2⟩ := xypad_step_param_in_range w i.bounds i.cursor st i.event hx hy
    exact ih _ _ hx2 hy2

/-! ## Claims -/

/-- Claim C1: for every widget (knob, h-slider, v-slider, ramp, xy-pad)
and every sequence of processed input events, each committed normalized
parameter value always lies in [0.0, 1.0]: out-of-range raw inputs (such
as -5.0 or 5.0) are clamped to 0.0 / 1.0 rather than rejected, and no
operation makes the stored value observably leave the range (the
`InRange` hypotheses say only that the widget was constructed with a
clamped value and default, which `Normal`'s constructors guarantee). -/
theorem C1_committed_values_always_in_unit_range :
    (Normal.clip (-5)).as_f32 = 0 ∧ (Normal.clip 5).as_f32 = 1 ∧
    (∀ r : F32, 0 ≤ (Normal.clip r).as_f32 ∧ (Normal.clip r).as_f32 ≤ 1) ∧
    (∀ (inputs : List HostInput) (k : Knob) (st : KnobState),
      k.normal_param.InRange →
      0 ≤ (Knob.run k st inputs).1.normal_param.value.as_f32 ∧
        (Knob.run k st inputs).1.normal_param.value.as_f32 ≤ 1) ∧
    (∀ (inputs : List HostInput) (h : HSlider) (st : HSliderState),
      h.normal_param.InRange →
      0 ≤ (HSlider.run h st inputs).1.normal_param.value.as_f32 ∧
        (HSlider.run h st inputs).1.normal_param.value.as_f32 ≤ 1) ∧
    (∀ (inputs : List HostInput) (v : VSlider) (st : VSliderState),
      v.normal_param.InRange →
      0 ≤ (VSlider.run v st inputs).1.normal_param.value.as_f32 ∧
        (VSlider.run v st inputs).1.normal_param.value.as_f32 ≤ 1) ∧
    (∀ (inputs : List HostInput) (w : Ramp) (st : RampState),
      w.normal_param.InRange →
      0 ≤ (Ramp.run w st inputs).1.normal_param.value.as_f32 ∧
        (Ramp.run w st inputs).1.normal_param.value.as_f32 ≤ 1) ∧
    (∀ (inputs : List HostInput) (w : XYPad) (st : XYPadState),
      w.normal_param_x.InRange → w.normal_param_y.InRange →
      (0 ≤ (XYPad.run w st inputs).1.normal_param_x.value.as_f32 ∧
        (XYPad.run w st inputs).1.normal_param_x.value.as_f32 ≤ 1) ∧
      (0 ≤ (XYPad.run w st inputs).1.normal_param_y.value.as_f32 ∧
        (XYPad.run w st inputs).1.normal_param_y.value.as_f32 ≤ 1)) := by
  refine ⟨by decide, by decide, ?_, ?_, ?_, ?_, ?_, ?_⟩
  · exact fun r => ⟨Normal.clip_nonneg r, Normal.clip_le_one r⟩
  · intro inputs k st h
    have H := knob_run_in_range inputs k st h
    exact ⟨H.1, H.2.1⟩
  · intro inputs h st hIn
    have H := hslider_run_in_range inputs h st hIn
    exact ⟨H.1, H.2.1⟩
  · intro inputs v st h
    have H := vslider_run_in_range inputs v st h
    exact ⟨H.1, H.2.1⟩
  · intro inputs w st h
    have H := ramp_run_in_range inputs w st h
    exact ⟨H.1, H.2.1⟩
  · intro inputs w st hx hy
    obtain ⟨Hx, Hy⟩ := xypad_run_in_range inputs w st hx hy
    exact ⟨⟨Hx.1, Hx.2.1⟩, ⟨Hy.1, Hy.2.1⟩⟩

/-- Witness for C1: the knob case applied to a concrete widget and a
concrete event sequence. -/
theorem C1_witness :
    0 ≤ (Knob.run exKnob exKnobState
        [⟨exBounds, some ⟨5, 5⟩, .ButtonPressed .Single⟩,
          ⟨exBounds, some ⟨5, 905⟩, .CursorMoved ⟨5, 905⟩⟩]).1.normal_param.value.as_f32 ∧
      (Knob.run exKnob exKnobState
        [⟨exBounds, some ⟨5, 5⟩, .ButtonPressed .Single⟩,
          ⟨exBounds, some ⟨5, 905⟩, .CursorMoved ⟨5, 905⟩⟩]).1.normal_param.value.as_f32 ≤ 1 :=
  C1_committed_values_always_in_unit_range.2.2.2.1
    [⟨exBounds, some ⟨5, 5⟩, .ButtonPressed .Single⟩,
      ⟨exBounds, some ⟨5, 905⟩, .CursorMoved ⟨5, 905⟩⟩]
    exKnob exKnobState (by norm_num [exKnob, exParam, NormalParam.InRange])

/-- Claim C10: the `mod_range_2` builder on `Knob` and `VSlider` stores
its argument into the `mod_range_1` field and leaves `mod_range_2`
unchanged (`None` from construction), so a second modulation range set
this way is never recorded, and it silently overwrites any previously set
first modulation range. -/
theorem C10_mod_range_2_overwrites_mod_range_1 :
    (∀ (k : Knob) (m : ModulationRange),
      (k.set_mod_range_2 m).mod_range_1 = some m ∧
        (k.set_mod_range_2 m).mod_range_2 = k.mod_range_2) ∧
    (∀ (p : NormalParam) (m : ModulationRange),
      ((Knob.new p).set_mod_range_2 m).mod_range_2 = none) ∧
    (∀ (k : Knob) (m1 m2 : ModulationRange),
      ((k.set_mod_range m1).set_mod_range_2 m2).mod_range_1 = some m2) ∧
    (∀ (v : VSlider) (m : ModulationRange),
      (v.set_mod_range_2 m).mod_range_1 = some m ∧
        (v.set_mod_range_2 m).mod_range_2 = v.mod_range_2) ∧
    (∀ (v : VSlider) (m1 m2 : ModulationRange),
      ((v.set_mod_range m1).set_mod_range_2 m2).mod_range_1 = some m2) :=
  ⟨fun _ _ => ⟨rfl, rfl⟩, fun _ _ => rfl, fun _ _ _ => rfl,
    fun _ _ => ⟨rfl, rfl⟩, fun _ _ _ => rfl⟩

/-- Counterexample to C4: with Ctrl held and `modifier_scalar = 2^(-13)`,
an incoming delta of `2^(-11)` scales to `2^(-24)`, which is below
f32::EPSILON (`2^(-23)`); the claim then demands `Unchanged` and no state
change, but `move_virtual_slider` checks epsilon before modifier scaling,
returns `Moved`, and changes the committed value. -/
theorem C4_counterexample :
    cexStC4.pressed_modifiers.contains cexKnobC4.modifier_keys ∧
    |(1 / 2 ^ 11 : F32) * cexKnobC4.modifier_scalar| < f32Epsilon ∧
    (cexKnobC4.move_virtual_slider cexStC4 (1 / 2 ^ 11)).status = SliderStatus.Moved ∧
    (cexKnobC4.move_virtual_slider cexStC4 (1 / 2 ^ 11)).widget.normal_param.value ≠
      cexKnobC4.normal_param.value := by
  have hlarge : f32Epsilon ≤ |(1 / 2 ^ 11 : F32)| := by
    rw [abs_of_pos (by norm_num)]
    norm_num [f32Epsilon]
  refine ⟨?_, ?_, ?_, ?_⟩
  · norm_num [cexStC4, cexKnobC4, exKnob, exKnobState, Modifiers.contains, Modifiers.CTRL]
  · rw [abs_of_pos (by norm_num [cexKnobC4, exKnob])]
    norm_num [cexKnobC4, exKnob, f32Epsilon]
  · rw [knob_move_of_large cexKnobC4 cexStC4 (1 / 2 ^ 11) hlarge]
  · rw [knob_move_of_large cexKnobC4 cexStC4 (1 / 2 ^ 11) hlarge]
    have hmods : cexStC4.pressed_modifiers.contains cexKnobC4.modifier_keys := by
      norm_num [cexStC4, cexKnobC4, exKnob, exKnobState, Modifiers.contains, Modifiers.CTRL]
    dsimp only
    rw [if_pos hmods]
    norm_num [cexKnobC4, cexStC4, exKnob, exKnobState, exParam, Normal.clip]

/-- Claim C4 (amended): in `move_virtual_slider` the epsilon guard is
applied to the incoming delta before modifier scaling: a delta with
absolute value below f32 machine epsilon returns `Unchanged` with no
state change, and any delta at or above epsilon returns `Moved` and
applies the modifier-scaled delta — even when the scaled delta is itself
below epsilon. -/
theorem C4_amended_epsilon_guard_precedes_modifier_scaling :
    (∀ (k : Knob) (st : KnobState) (d : F32), |d| < f32Epsilon →
      k.move_virtual_slider st d = ⟨k, st, .Unchanged⟩) ∧
    (∀ (k : Knob) (st : KnobState) (d : F32), f32Epsilon ≤ |d| →
      (k.move_virtual_slider st d).status = SliderStatus.Moved ∧
      (k.move_virtual_slider st d).widget.normal_param.value =
        Normal.clip (st.continuous_normal -
          (if st.pressed_modifiers.contains k.modifier_keys then d * k.modifier_scalar else d))) ∧
    (∀ (v : VSlider) (st : VSliderState) (d : F32), |d| < f32Epsilon →
      v.move_virtual_slider st d = ⟨v, st, .Unchanged⟩) ∧
    (∀ (v : VSlider) (st : VSliderState) (d : F32), f32Epsilon ≤ |d| →
      (v.move_virtual_slider st d).status = SliderStatus.Moved ∧
      (v.move_virtual_slider st d).widget.normal_param.value =
        Normal.clip (st.continuous_normal -
          (if st.pressed_modifiers.contains v.modifier_keys then d * v.modifier_scalar else d))) ∧
    (∀ (w : Ramp) (st : RampState) (d : F32), |d| < f32Epsilon →
      w.move_virtual_slider st d = ⟨w, st, .Unchanged⟩) ∧
    (∀ (w : Ramp) (st : RampState) (d : F32), f32Epsilon ≤ |d| →
      (w.move_virtual_slider st d).status = SliderStatus.Moved ∧
      (w.move_virtual_slider st d).widget.normal_param.value =
        Normal.clip (st.continuous_normal -
          (if st.pressed_modifiers.contains w.modifier_keys then d * w.modifier_scalar else d))) ∧
    (∀ (hs : HSlider) (st : HSliderState) (d : F32), |d| < f32Epsilon →
      hs.move_virtual_slider st d = ⟨hs, st, .Unchanged⟩) ∧
    (∀ (hs : HSlider) (st : HSliderState) (d : F32), f32Epsilon ≤ |d| →
      (hs.move_virtual_slider st d).status = SliderStatus.Moved ∧
      (hs.move_virtual_slider st d).widget.normal_param.value =
        Normal.clip (st.continuous_normal -
          (if st.pressed_modifiers.contains hs.modifier_keys then d * hs.modifier_scalar else d))) := by
  refine ⟨?_, ?_, ?_, ?_, ?_, ?_, ?_, ?_⟩
  · exact fun k st d h => knob_move_of_small k st d h
  · intro k st d h
    rw [knob_move_of_large k st d h]
    exact ⟨rfl, rfl⟩
  · exact fun v st d h => vslider_move_of_small v st d h
  · intro v st d h
    rw [vslider_move_of_large v st d h]
    exact ⟨rfl, rfl⟩
  · exact fun w st d h => ramp_move_of_small w st d h
  · intro w st d h
    rw [ramp_move_of_large w st d h]
    exact ⟨rfl, rfl⟩
  · exact fun hs st d h => hslider_move_of_small hs st d h
  · intro hs st d h
    rw [hslider_move_of_large hs st d h]
    exact ⟨rfl, rfl⟩

/-- Witness for the amended C4, at a tiny delta and a respectable delta. -/
theorem C4_witness :
    (|(1 / 2 ^ 24 : F32)| < f32Epsilon ∧
      exKnob.move_virtual_slider exKnobState (1 / 2 ^ 24) = ⟨exKnob, exKnobState, .Unchanged⟩) ∧
    (f32Epsilon ≤ |(1 / 4 : F32)| ∧
      (exKnob.move_virtual_slider exKnobState (1 / 4)).status = SliderStatus.Moved) := by
  have hsmall : |(1 / 2 ^ 24 : F32)| < f32Epsilon := by
    rw [abs_of_pos (by norm_num)]
    norm_num [f32Epsilon]
  have hlarge : f32Epsilon ≤ |(1 / 4 : F32)| := by
    rw [abs_of_pos (by norm_num)]
    norm_num [f32Epsilon]
  exact
    ⟨⟨hsmall,
        C4_amended_epsilon_guard_precedes_modifier_scaling.1 exKnob exKnobState _ hsmall⟩,
      ⟨hlarge,
        (C4_amended_epsilon_guard_precedes_modifier_scaling.2.1 exKnob exKnobState _ hlarge).1⟩⟩

/-- One wheel tick on an idle knob: grab (if defined), one change,
release (if defined), in that order — provided the tick's scaled delta
clears the epsilon guard. -/
theorem knob_wheel_idle (k : Knob) (bounds : Rect) (p : Point) (st : KnobState)
    (x lines : F32) (hws : ¬k.wheel_scalar = 0) (hover : isOver (some p) bounds)
    (hlin : ¬lines = 0) (heps : f32Epsilon ≤ |lines * k.wheel_scalar|)
    (hidle : st.dragging_status = none) :
    ∃ v, (k.on_event bounds (some p) st (.WheelScrolled (.Lines x lines))).outs =
        (if k.on_grab then [Out.grab] else []) ++ [Out.change v] ++
          (if k.on_release then [Out.release] else []) ∧
      (k.on_event bounds (some p) st (.WheelScrolled (.Lines x lines))).state.dragging_status =
        none := by
  have hrd : (k.reconcile st).dragging_status = none := by
    rw [knob_reconcile_dragging]; exact hidle
  have habs : f32Epsilon ≤ |-lines * k.wheel_scalar| := by
    rw [neg_mul, abs_neg]; exact heps
  unfold Knob.on_event
  dsimp only
  rw [if_neg hws, if_pos hover, if_pos hlin]
  rw [knob_move_of_large _ _ _ habs]
  dsimp only [SliderStatus.was_moved]
  rw [if_pos rfl]
  rw [hrd]
  exact ⟨_, rfl, rfl⟩

/-- One wheel tick while a manual drag is open: only a change, the drag
stays open and is marked moved. -/
theorem knob_wheel_dragging (k : Knob) (bounds : Rect) (p : Point) (st : KnobState)
    (x lines : F32) (s : SliderStatus) (hws : ¬k.wheel_scalar = 0)
    (hover : isOver (some p) bounds) (hlin : ¬lines = 0)
    (heps : f32Epsilon ≤ |lines * k.wheel_scalar|)
    (hdrag : st.dragging_status = some s) :
    ∃ v, (k.on_event bounds (some p) st (.WheelScrolled (.Lines x lines))).outs =
        [Out.change v] ∧
      (k.on_event bounds (some p) st (.WheelScrolled (.Lines x lines))).state.dragging_status =
        some SliderStatus.Moved := by
  have hrd : (k.reconcile st).dragging_status = some s := by
    rw [knob_reconcile_dragging]; exact hdrag
  have habs : f32Epsilon ≤ |-lines * k.wheel_scalar| := by
    rw [neg_mul, abs_neg]; exact heps
  unfold Knob.on_event
  dsimp only
  rw [if_neg hws, if_pos hover, if_pos hlin]
  rw [knob_move_of_large _ _ _ habs]
  dsimp only [SliderStatus.was_moved]
  rw [if_pos rfl]
  rw [hrd]
  exact ⟨_, rfl, rfl⟩

/-- One wheel tick on an idle v-slider: grab (if defined), one change,
release (if defined), in that order — provided the tick's scaled delta
clears the epsilon guard. -/
theorem vslider_wheel_idle (k : VSlider) (bounds : Rect) (p : Point) (st : VSliderState)
    (x lines : F32) (hws : ¬k.wheel_scalar = 0) (hover : isOver (some p) bounds)
    (hlin : ¬lines = 0) (heps : f32Epsilon ≤ |lines * k.wheel_scalar|)
    (hidle : st.dragging_status = none) :
    ∃ v, (k.on_event bounds (some p) st (.WheelScrolled (.Lines x lines))).outs =
        (if k.on_grab then [Out.grab] else []) ++ [Out.change v] ++
          (if k.on_release then [Out.release] else []) ∧
      (k.on_event bounds (some p) st (.WheelScrolled (.Lines x lines))).state.dragging_status =
        none := by
  have hrd : (k.reconcile st).dragging_status = none := by
    rw [vslider_reconcile_dragging]; exact hidle
  have habs : f32Epsilon ≤ |-lines * k.wheel_scalar| := by
    rw [neg_mul, abs_neg]; exact heps
  unfold VSlider.on_event
  dsimp only
  rw [if_neg hws, if_pos hover, if_pos hlin]
  rw [vslider_move_of_large _ _ _ habs]
  dsimp only [SliderStatus.was_moved]
  rw [if_pos rfl]
  rw [hrd]
  exact ⟨_, rfl, rfl⟩

/-- One wheel tick while a manual drag is open: only a change, the drag
stays open and is marked moved. -/
theorem vslider_wheel_dragging (k : VSlider) (bounds : Rect) (p : Point) (st : VSliderState)
    (x lines : F32) (s : SliderStatus) (hws : ¬k.wheel_scalar = 0)
    (hover : isOver (some p) bounds) (hlin : ¬lines = 0)
    (heps : f32Epsilon ≤ |lines * k.wheel_scalar|)
    (hdrag : st.dragging_status = some s) :
    ∃ v, (k.on_event bounds (some p) st (.WheelScrolled (.Lines x lines))).outs =
        [Out.change v] ∧
      (k.on_event bounds (some p) st (.WheelScrolled (.Lines x lines))).state.dragging_status =
        some SliderStatus.Moved := by
  have hrd : (k.reconcile st).dragging_status = some s := by
    rw [vslider_reconcile_dragging]; exact hdrag
  have habs : f32Epsilon ≤ |-lines * k.wheel_scalar| := by
    rw [neg_mul, abs_neg]; exact heps
  unfold VSlider.on_event
  dsimp only
  rw [if_neg hws, if_pos hover, if_pos hlin]
  rw [vslider_move_of_large _ _ _ habs]
  dsimp only [SliderStatus.was_moved]
  rw [if_pos rfl]
  rw [hrd]
  exact ⟨_, rfl, rfl⟩

/-- One wheel tick on an idle ramp: grab (if defined), one change,
release (if defined), in that order — provided the tick's scaled delta
clears the epsilon guard. -/
theorem ramp_wheel_idle (k : Ramp) (bounds : Rect) (p : Point) (st : RampState)
    (x lines : F32) (hws : ¬k.wheel_scalar = 0) (hover : isOver (some p) bounds)
    (hlin : ¬lines = 0) (heps : f32Epsilon ≤ |lines * k.wheel_scalar|)
    (hidle : st.dragging_status = none) :
    ∃ v, (k.on_event bounds (some p) st (.WheelScrolled (.Lines x lines))).outs =
        (if k.on_grab then [Out.grab] else []) ++ [Out.change v] ++
          (if k.on_release then [Out.release] else []) ∧
      (k.on_event bounds (some p) st (.WheelScrolled (.Lines x lines))).state.dragging_status =
        none := by
  have hrd : (k.reconcile st).dragging_status = none := by
    rw [ramp_reconcile_dragging]; exact hidle
  have habs : f32Epsilon ≤ |-lines * k.wheel_scalar| := by
    rw [neg_mul, abs_neg]; exact heps
  unfold Ramp.on_event
  dsimp only
  rw [if_neg hws, if_pos hover, if_pos hlin]
  rw [ramp_move_of_large _ _ _ habs]
  dsimp only [SliderStatus.was_moved]
  rw [if_pos rfl]
  rw [hrd]
  exact ⟨_, rfl, rfl⟩

/-- One wheel tick while a manual drag is open: only a change, the drag
stays open and is marked moved. -/
theorem ramp_wheel_dragging (k : Ramp) (bounds : Rect) (p : Point) (st : RampState)
    (x lines : F32) (s : SliderStatus) (hws : ¬k.wheel_scalar = 0)
    (hover : isOver (some p) bounds) (hlin : ¬lines = 0)
    (heps : f32Epsilon ≤ |lines * k.wheel_scalar|)
    (hdrag : st.dragging_status = some s) :
    ∃ v, (k.on_event bounds (some p) st (.WheelScrolled (.Lines x lines))).outs =
        [Out.change v] ∧
      (k.on_event bounds (some p) st (.WheelScrolled (.Lines x lines))).state.dragging_status =
        some SliderStatus.Moved := by
  have hrd : (k.reconcile st).dragging_status = some s := by
    rw [ramp_reconcile_dragging]; exact hdrag
  have habs : f32Epsilon ≤ |-lines * k.wheel_scalar| := by
    rw [neg_mul, abs_neg]; exact heps
  unfold Ramp.on_event
  dsimp only
  rw [if_neg hws, if_pos hover, if_pos hlin]
  rw [ramp_move_of_large _ _ _ habs]
  dsimp only [SliderStatus.was_moved]
  rw [if_pos rfl]
  rw [hrd]
  exact ⟨_, rfl, rfl⟩

/-- One wheel tick on an idle h-slider (spec-modelled): grab (if defined), one change,
release (if defined), in that order — provided the tick's scaled delta
clears the epsilon guard. -/
theorem hslider_wheel_idle (k : HSlider) (bounds : Rect) (p : Point) (st : HSliderState)
    (x lines : F32) (hws : ¬k.wheel_scalar = 0) (hover : isOver (some p) bounds)
    (hlin : ¬lines = 0) (heps : f32Epsilon ≤ |lines * k.wheel_scalar|)
    (hidle : st.dragging_status = none) :
    ∃ v, (k.on_event bounds (some p) st (.WheelScrolled (.Lines x lines))).outs =
        (if k.on_grab then [Out.grab] else []) ++ [Out.change v] ++
          (if k.on_release then [Out.release] else []) ∧
      (k.on_event bounds (some p) st (.WheelScrolled (.Lines x lines))).state.dragging_status =
        none := by
  have hrd : (k.reconcile st).dragging_status = none := by
    rw [hslider_reconcile_dragging]; exact hidle
  have habs : f32Epsilon ≤ |-lines * k.wheel_scalar| := by
    rw [neg_mul, abs_neg]; exact heps
  unfold HSlider.on_event
  dsimp only
  rw [if_neg hws, if_pos hover, if_pos hlin]
  rw [hslider_move_of_large _ _ _ habs]
  dsimp only [SliderStatus.was_moved]
  rw [if_pos rfl]
  rw [hrd]
  exact ⟨_, rfl, rfl⟩

/-- One wheel tick while a manual drag is open: only a change, the drag
stays open and is marked moved. -/
theorem hslider_wheel_dragging (k : HSlider) (bounds : Rect) (p : Point) (st : HSliderState)
    (x lines : F32) (s : SliderStatus) (hws : ¬k.wheel_scalar = 0)
    (hover : isOver (some p) bounds) (hlin : ¬lines = 0)
    (heps : f32Epsilon ≤ |lines * k.wheel_scalar|)
    (hdrag : st.dragging_status = some s) :
    ∃ v, (k.on_event bounds (some p) st (.WheelScrolled (.Lines x lines))).outs =
        [Out.change v] ∧
      (k.on_event bounds (some p) st (.WheelScrolled (.Lines x lines))).state.dragging_status =
        some SliderStatus.Moved := by
  have hrd : (k.reconcile st).dragging_status = some s := by
    rw [hslider_reconcile_dragging]; exact hdrag
  have habs : f32Epsilon ≤ |-lines * k.wheel_scalar| := by
    rw [neg_mul, abs_neg]; exact heps
  unfold HSlider.on_event
  dsimp only
  rw [if_neg hws, if_pos hover, if_pos hlin]
  rw [hslider_move_of_large _ _ _ habs]
  dsimp only [SliderStatus.was_moved]
  rw [if_pos rfl]
  rw [hrd]
  exact ⟨_, rfl, rfl⟩

/-- Counterexample to C5: a knob with nonzero wheel_scalar `2^(-24)` and
both callbacks defined receives a qualifying wheel tick (nonzero lines,
cursor over the widget) while idle, yet publishes nothing at all — the
scaled wheel delta falls below the epsilon guard, so no grab / change /
release micro-lifecycle is emitted. -/
theorem C5_counterexample :
    cexKnobC5.wheel_scalar ≠ 0 ∧ cexKnobC5.on_grab = true ∧ cexKnobC5.on_release = true ∧
    exKnobState.dragging_status = none ∧ isOver (some ⟨5, 5⟩) exBounds ∧
    (cexKnobC5.on_event exBounds (some ⟨5, 5⟩) exKnobState
        (.WheelScrolled (.Lines 0 1))).outs = [] := by
  have h0 : cexKnobC5.reconcile exKnobState = exKnobState :=
    knob_reconcile_of_eq _ _ (by norm_num [cexKnobC5, exKnob, exKnobState, exParam])
  have hws : ¬cexKnobC5.wheel_scalar = 0 := by norm_num [cexKnobC5, exKnob]
  have hover : isOver (some ⟨5, 5⟩) exBounds := by
    norm_num [isOver, Rect.contains, exBounds]
  have hsm : |-(1 : F32) * cexKnobC5.wheel_scalar| < f32Epsilon := by
    have h1 : cexKnobC5.wheel_scalar = 1 / 2 ^ 24 := by norm_num [cexKnobC5, exKnob]
    rw [h1, neg_mul, abs_neg, one_mul, abs_of_pos (by norm_num)]
    norm_num [f32Epsilon]
  refine ⟨hws, by norm_num [cexKnobC5, exKnob], by norm_num [cexKnobC5, exKnob],
    by norm_num [exKnobState], hover, ?_⟩
  unfold Knob.on_event
  dsimp only
  rw [h0, if_neg hws, if_pos hover, if_pos (by norm_num : ¬(1 : F32) = 0)]
  rw [knob_move_of_small _ _ _ hsm]
  dsimp only [SliderStatus.was_moved]
  rw [if_neg (by simp)]

/-- Claim C5 (amended): for a widget with nonzero wheel_scalar, a
qualifying wheel tick (nonzero lines, cursor over the widget) whose
resulting delta `lines * wheel_scalar` is at least f32 machine epsilon,
while no drag is active, publishes a complete micro-lifecycle in the
order on_grab (if defined), on_change, on_release (if defined), each
exactly once; the same tick while a manual drag is already open publishes
only on_change and marks the open drag moved (release deferred).  A tick
whose scaled delta falls below epsilon publishes nothing. -/
theorem C5_amended_wheel_micro_lifecycle :
    (∀ (k : Knob) (bounds : Rect) (p : Point) (st : KnobState) (x lines : F32),
      ¬k.wheel_scalar = 0 → isOver (some p) bounds → ¬lines = 0 →
      f32Epsilon ≤ |lines * k.wheel_scalar| → st.dragging_status = none →
      ∃ v, (k.on_event bounds (some p) st (.WheelScrolled (.Lines x lines))).outs =
          (if k.on_grab then [Out.grab] else []) ++ [Out.change v] ++
            (if k.on_release then [Out.release] else []) ∧
        (k.on_event bounds (some p) st
          (.WheelScrolled (.Lines x lines))).state.dragging_status = none) ∧
    (∀ (k : Knob) (bounds : Rect) (p : Point) (st : KnobState) (x lines : F32)
        (s : SliderStatus),
      ¬k.wheel_scalar = 0 → isOver (some p) bounds → ¬lines = 0 →
      f32Epsilon ≤ |lines * k.wheel_scalar| → st.dragging_status = some s →
      ∃ v, (k.on_event bounds (some p) st (.WheelScrolled (.Lines x lines))).outs =
          [Out.change v] ∧
        (k.on_event bounds (some p) st
          (.WheelScrolled (.Lines x lines))).state.dragging_status =
            some SliderStatus.Moved) ∧
    (∀ (k : VSlider) (bounds : Rect) (p : Point) (st : VSliderState) (x lines : F32),
      ¬k.wheel_scalar = 0 → isOver (some p) bounds → ¬lines = 0 →
      f32Epsilon ≤ |lines * k.wheel_scalar| → st.dragging_status = none →
      ∃ v, (k.on_event bounds (some p) st (.WheelScrolled (.Lines x lines))).outs =
          (if k.on_grab then [Out.grab] else []) ++ [Out.change v] ++
            (if k.on_release then [Out.release] else []) ∧
        (k.on_event bounds (some p) st
          (.WheelScrolled (.Lines x lines))).state.dragging_status = none) ∧
    (∀ (k : VSlider) (bounds : Rect) (p : Point) (st : VSliderState) (x lines : F32)
        (s : SliderStatus),
      ¬k.wheel_scalar = 0 → isOver (some p) bounds → ¬lines = 0 →
      f32Epsilon ≤ |lines * k.wheel_scalar| → st.dragging_status = some s →
      ∃ v, (k.on_event bounds (some p) st (.WheelScrolled (.Lines x lines))).outs =
          [Out.change v] ∧
        (k.on_event bounds (some p) st
          (.WheelScrolled (.Lines x lines))).state.dragging_status =
            some SliderStatus.Moved) ∧
    (∀ (k : Ramp) (bounds : Rect) (p : Point) (st : RampState) (x lines : F32),
      ¬k.wheel_scalar = 0 → isOver (some p) bounds → ¬lines = 0 →
      f32Epsilon ≤ |lines * k.wheel_scalar| → st.dragging_status = none →
      ∃ v, (k.on_event bounds (some p) st (.WheelScrolled (.Lines x lines))).outs =
          (if k.on_grab then [Out.grab] else []) ++ [Out.change v] ++
            (if k.on_release then [Out.release] else []) ∧
        (k.on_event bounds (some p) st
          (.WheelScrolled (.Lines x lines))).state.dragging_status = none) ∧
    (∀ (k : Ramp) (bounds : Rect) (p : Point) (st : RampState) (x lines : F32)
        (s : SliderStatus),
      ¬k.wheel_scalar = 0 → isOver (some p) bounds → ¬lines = 0 →
      f32Epsilon ≤ |lines * k.wheel_scalar| → st.dragging_status = some s →
      ∃ v, (k.on_event bounds (some p) st (.WheelScrolled (.Lines x lines))).outs =
          [Out.change v] ∧
        (k.on_event bounds (some p) st
          (.WheelScrolled (.Lines x lines))).state.dragging_status =
            some SliderStatus.Moved) ∧
    (∀ (k : HSlider) (bounds : Rect) (p : Point) (st : HSliderState) (x lines : F32),
      ¬k.wheel_scalar = 0 → isOver (some p) bounds → ¬lines = 0 →
      f32Epsilon ≤ |lines * k.wheel_scalar| → st.dragging_status = none →
      ∃ v, (k.on_event bounds (some p) st (.WheelScrolled (.Lines x lines))).outs =
          (if k.on_grab then [Out.grab] else []) ++ [Out.change v] ++
            (if k.on_release then [Out.release] else []) ∧
        (k.on_event bounds (some p) st
          (.WheelScrolled (.Lines x lines))).state.dragging_status = none) ∧
    (∀ (k : HSlider) (bounds : Rect) (p : Point) (st : HSliderState) (x lines : F32)
        (s : SliderStatus),
      ¬k.wheel_scalar = 0 → isOver (some p) bounds → ¬lines = 0 →
      f32Epsilon ≤ |lines * k.wheel_scalar| → st.dragging_status = some s →
      ∃ v, (k.on_event bounds (some p) st (.WheelScrolled (.Lines x lines))).outs =
          [Out.change v] ∧
        (k.on_event bounds (some p) st
          (.WheelScrolled (.Lines x lines))).state.dragging_status =
            some SliderStatus.Moved) :=
  ⟨knob_wheel_idle, knob_wheel_dragging, vslider_wheel_idle, vslider_wheel_dragging,
    ramp_wheel_idle, ramp_wheel_dragging, hslider_wheel_idle, hslider_wheel_dragging⟩

/-- Witness for the amended C5: a concrete idle wheel tick on a knob with
both callbacks defined. -/
theorem C5_witness :
    ∃ v, (exKnob.on_event exBounds (some ⟨5, 5⟩) exKnobState
          (.WheelScrolled (.Lines 0 1))).outs =
        (if exKnob.on_grab then [Out.grab] else []) ++ [Out.change v] ++
          (if exKnob.on_release then [Out.release] else []) ∧
      (exKnob.on_event exBounds (some ⟨5, 5⟩) exKnobState
        (.WheelScrolled (.Lines 0 1))).state.dragging_status = none :=
  C5_amended_wheel_micro_lifecycle.1 exKnob exBounds ⟨5, 5⟩ exKnobState 0 1
    (by norm_num [exKnob]) (by norm_num [isOver, Rect.contains, exBounds])
    (by norm_num)
    (by rw [one_mul, abs_of_pos (by norm_num [exKnob])]; norm_num [exKnob, f32Epsilon])
    (by norm_num [exKnobState])

/-- Claim C2: during a drag, every Moved update re-synchronizes the
continuous accumulator to the clamped committed value, so clamping at a
boundary creates no drift: beginning a drag at value 1.0, a large
increasing-direction delta (upward pointer movement) leaves the value at
1.0, and an immediately following decreasing-direction delta strictly
decreases the value — no stuck phantom continuous offset. -/
theorem C2_resync_prevents_boundary_drift :
    (∀ (k : Knob) (st : KnobState) (d : F32),
      (k.move_virtual_slider st d).status = SliderStatus.Moved →
      (k.move_virtual_slider st d).state.continuous_normal =
        (k.move_virtual_slider st d).widget.normal_param.value.as_f32) ∧
    (Knob.run kC2 stC2
        [⟨exBounds, some ⟨5, 5⟩, .ButtonPressed .Single⟩,
          ⟨exBounds, some ⟨5, -9995⟩, .CursorMoved ⟨5, -9995⟩⟩]).1.normal_param.value.as_f32 =
      1 ∧
    (Knob.run kC2 stC2
        [⟨exBounds, some ⟨5, 5⟩, .ButtonPressed .Single⟩,
          ⟨exBounds, some ⟨5, -9995⟩, .CursorMoved ⟨5, -9995⟩⟩,
          ⟨exBounds, some ⟨5, 5⟩, .CursorMoved ⟨5, 5⟩⟩]).1.normal_param.value.as_f32 < 1 := by
  have part1 : ∀ (k : Knob) (st : KnobState) (d : F32),
      (k.move_virtual_slider st d).status = SliderStatus.Moved →
      (k.move_virtual_slider st d).state.continuous_normal =
        (k.move_virtual_slider st d).widget.normal_param.value.as_f32 := by
    intro k st d hmv
    by_cases hc : |d| < f32Epsilon
    · rw [knob_move_of_small _ _ _ hc] at hmv
      exact absurd hmv (by simp)
    · rw [knob_move_of_large _ _ _ (not_lt.mp hc)]
      rfl
  have h1 : kC2.on_event exBounds (some ⟨5, 5⟩) stC2 (.ButtonPressed .Single) =
      ⟨kC2, stC2a, [Out.grab], .Captured⟩ := by
    rw [knob_pressed_single _ _ _ _ (by norm_num [Rect.contains, exBounds])]
    rw [knob_reconcile_of_eq _ _ (by norm_num [stC2, exKnobState, kC2, exKnob, exParam])]
    norm_num [kC2, exKnob, stC2a]
  have hrecA : kC2.reconcile stC2a = stC2a := knob_reconcile_of_some _ _ .Unchanged (by simp [stC2a])
  have hdv1 : kC2.dragValue stC2a ⟨5, -9995⟩ = (⟨1⟩ : Normal) := by
    norm_num [Knob.dragValue, stC2a, stC2, exKnobState, kC2, exKnob,
      Modifiers.contains, Modifiers.CTRL, Modifiers.empty, Normal.clip]
  have h2 : kC2.on_event exBounds (some ⟨5, -9995⟩) stC2a (.CursorMoved ⟨5, -9995⟩) =
      ⟨kC2, stC2b, [Out.change ⟨1⟩], .Captured⟩ := by
    rw [knob_moved_of_large kC2 exBounds (some ⟨5, -9995⟩) stC2a ⟨5, -9995⟩ .Unchanged
      (by rw [hrecA]; rfl)
      (by
        rw [hrecA]
        exact le_abs.mpr (Or.inr (by
          norm_num [stC2a, stC2, exKnobState, kC2, exKnob, f32Epsilon]))),
      hrecA, hdv1]
    norm_num [kC2, exKnob, exParam, stC2b, stC2a, stC2, exKnobState]
  have hrecB : kC2.reconcile stC2b = stC2b := knob_reconcile_of_some _ _ .Moved (by simp [stC2b])
  have hdv2 : kC2.dragValue stC2b ⟨5, 5⟩ = (⟨0⟩ : Normal) := by
    norm_num [Knob.dragValue, stC2b, stC2a, stC2, exKnobState, kC2, exKnob,
      Modifiers.contains, Modifiers.CTRL, Modifiers.empty, Normal.clip]
  have h3 : (kC2.on_event exBounds (some ⟨5, 5⟩) stC2b
        (.CursorMoved ⟨5, 5⟩)).widget.normal_param.value = (⟨0⟩ : Normal) := by
    rw [knob_moved_of_large kC2 exBounds (some ⟨5, 5⟩) stC2b ⟨5, 5⟩ .Moved
      (by rw [hrecB]; rfl)
      (by
        rw [hrecB]
        exact le_abs.mpr (Or.inl (by
          norm_num [stC2b, stC2a, stC2, exKnobState, kC2, exKnob, f32Epsilon]))),
      hrecB, hdv2]
  have hrun2 : Knob.run kC2 stC2
      [⟨exBounds, some ⟨5, 5⟩, .ButtonPressed .Single⟩,
        ⟨exBounds, some ⟨5, -9995⟩, .CursorMoved ⟨5, -9995⟩⟩] = (kC2, stC2b) := by
    simp only [Knob.run]
    try dsimp only
    rw [h1]
    dsimp only
    rw [h2]
  have hrun3 : (Knob.run kC2 stC2
      [⟨exBounds, some ⟨5, 5⟩, .ButtonPressed .Single⟩,
        ⟨exBounds, some ⟨5, -9995⟩, .CursorMoved ⟨5, -9995⟩⟩,
        ⟨exBounds, some ⟨5, 5⟩, .CursorMoved ⟨5, 5⟩⟩]).1.normal_param.value =
      (⟨0⟩ : Normal) := by
    simp only [Knob.run]
    try dsimp only
    rw [h1]
    dsimp only
    rw [h2]
    dsimp only
    exact h3
  refine ⟨part1, ?_, ?_⟩
  · rw [hrun2]
    norm_num [kC2, exKnob, Normal.as_f32]
  · rw [hrun3]
    norm_num [Normal.as_f32]

/-- Witness for C2's universally quantified re-sync component, at a
concrete Moved input. -/
theorem C2_witness :
    (exKnob.move_virtual_slider exKnobState (1 / 4)).status = SliderStatus.Moved ∧
    (exKnob.move_virtual_slider exKnobState (1 / 4)).state.continuous_normal =
      (exKnob.move_virtual_slider exKnobState (1 / 4)).widget.normal_param.value.as_f32 := by
  have hst : (exKnob.move_virtual_slider exKnobState (1 / 4)).status = SliderStatus.Moved := by
    rw [knob_move_of_large _ _ _
      (le_abs.mpr (Or.inl (by norm_num [f32Epsilon])))]
  exact ⟨hst, C2_resync_prevents_boundary_drift.1 exKnob exKnobState (1 / 4) hst⟩

/-- Counterexample to C3: on the xy-pad, with no drag active, both values
differing from their defaults and on_grab defined, a non-Single press
resets and fires change and release but never synthesizes on_grab — grab
and release are unbalanced, contrary to the claim's "for every widget". -/
theorem C3_counterexample :
    wXY3.on_grab = true ∧
    xyStIdle.dragging_status = none ∧
    wXY3.normal_param_x.value ≠ wXY3.normal_param_x.default ∧
    wXY3.normal_param_y.value ≠ wXY3.normal_param_y.default ∧
    (wXY3.on_event exBounds (some ⟨5, 5⟩) xyStIdle (.ButtonPressed .Multi)).outs =
      [Out.changeXY ⟨1/2⟩ ⟨1/2⟩, Out.release] ∧
    Out.grab ∉ (wXY3.on_event exBounds (some ⟨5, 5⟩) xyStIdle (.ButtonPressed .Multi)).outs := by
  have hover : exBounds.contains ⟨5, 5⟩ := by norm_num [Rect.contains, exBounds]
  have hboth : wXY3.normal_param_x.value ≠ wXY3.normal_param_x.default ∧
      wXY3.normal_param_y.value ≠ wXY3.normal_param_y.default := by
    constructor <;> norm_num [wXY3]
  have houts : (wXY3.on_event exBounds (some ⟨5, 5⟩) xyStIdle (.ButtonPressed .Multi)).outs =
      [Out.changeXY ⟨1/2⟩ ⟨1/2⟩, Out.release] := by
    rw [xypad_pressed_multi _ _ _ _ hover, if_pos hboth]
    norm_num [wXY3, Normal.as_f32]
  refine ⟨rfl, rfl, hboth.1, hboth.2, houts, ?_⟩
  rw [houts]
  simp

/-- Claim C3 (amended): for the knob, h-slider, v-slider and ramp, a
non-Single pointer-down inside the bounds triggers reset-to-default
exactly as claimed: if the value differs from the default it is set to
the default, on_change fires once and on_release fires, with on_grab
synthesized first iff no drag was active; if the value equals the default,
the value is unchanged and on_release fires iff a drag was mid-flight.
The xy-pad differs: its reset path never synthesizes on_grab, and it
resets (one on_change, then on_release) only when BOTH axes differ from
their defaults; otherwise only a mid-flight drag triggers on_release. -/
theorem C3_amended_reset_to_default :
    (∀ (k : Knob) (bounds : Rect) (p : Point) (st : KnobState), bounds.contains p →
      (k.normal_param.value ≠ k.normal_param.default →
        (k.on_event bounds (some p) st (.ButtonPressed .Multi)).widget.normal_param.value =
          k.normal_param.default ∧
        (k.on_event bounds (some p) st (.ButtonPressed .Multi)).outs =
          (if st.dragging_status = none ∧ k.on_grab then [Out.grab] else []) ++
            [Out.change k.normal_param.default] ++
            (if k.on_release then [Out.release] else [])) ∧
      (k.normal_param.value = k.normal_param.default →
        (k.on_event bounds (some p) st (.ButtonPressed .Multi)).widget.normal_param.value =
          k.normal_param.value ∧
        (k.on_event bounds (some p) st (.ButtonPressed .Multi)).outs =
          (if st.dragging_status.isSome then
            (if k.on_release then [Out.release] else []) else []))) ∧
    (∀ (k : VSlider) (bounds : Rect) (p : Point) (st : VSliderState), bounds.contains p →
      (k.normal_param.value ≠ k.normal_param.default →
        (k.on_event bounds (some p) st (.ButtonPressed .Multi)).widget.normal_param.value =
          k.normal_param.default ∧
        (k.on_event bounds (some p) st (.ButtonPressed .Multi)).outs =
          (if st.dragging_status = none ∧ k.on_grab then [Out.grab] else []) ++
            [Out.change k.normal_param.default] ++
            (if k.on_release then [Out.release] else [])) ∧
      (k.normal_param.value = k.normal_param.default →
        (k.on_event bounds (some p) st (.ButtonPressed .Multi)).widget.normal_param.value =
          k.normal_param.value ∧
        (k.on_event bounds (some p) st (.ButtonPressed .Multi)).outs =
          (if st.dragging_status.isSome then
            (if k.on_release then [Out.release] else []) else []))) ∧
    (∀ (k : Ramp) (bounds : Rect) (p : Point) (st : RampState), bounds.contains p →
      (k.normal_param.value ≠ k.normal_param.default →
        (k.on_event bounds (some p) st (.ButtonPressed .Multi)).widget.normal_param.value =
          k.normal_param.default ∧
        (k.on_event bounds (some p) st (.ButtonPressed .Multi)).outs =
          (if st.dragging_status = none ∧ k.on_grab then [Out.grab] else []) ++
            [Out.change k.normal_param.default] ++
            (if k.on_release then [Out.release] else [])) ∧
      (k.normal_param.value = k.normal_param.default →
        (k.on_event bounds (some p) st (.ButtonPressed .Multi)).widget.normal_param.value =
          k.normal_param.value ∧
        (k.on_event bounds (some p) st (.ButtonPressed .Multi)).outs =
          (if st.dragging_status.isSome then
            (if k.on_release then [Out.release] else []) else []))) ∧
    (∀ (k : HSlider) (bounds : Rect) (p : Point) (st : HSliderState), bounds.contains p →
      (k.normal_param.value ≠ k.normal_param.default →
        (k.on_event bounds (some p) st (.ButtonPressed .Multi)).widget.normal_param.value =
          k.normal_param.default ∧
        (k.on_event bounds (some p) st (.ButtonPressed .Multi)).outs =
          (if st.dragging_status = none ∧ k.on_grab then [Out.grab] else []) ++
            [Out.change k.normal_param.default] ++
            (if k.on_release then [Out.release] else [])) ∧
      (k.normal_param.value = k.normal_param.default →
        (k.on_event bounds (some p) st (.ButtonPressed .Multi)).widget.normal_param.value =
          k.normal_param.value ∧
        (k.on_event bounds (some p) st (.ButtonPressed .Multi)).outs =
          (if st.dragging_status.isSome then
            (if k.on_release then [Out.release] else []) else []))) ∧
    (∀ (w : XYPad) (bounds : Rect) (p : Point) (st : XYPadState), bounds.contains p →
      Out.grab ∉ (w.on_event bounds (some p) st (.ButtonPressed .Multi)).outs ∧
      (w.normal_param_x.value ≠ w.normal_param_x.default ∧
          w.normal_param_y.value ≠ w.normal_param_y.default →
        (w.on_event bounds (some p) st (.ButtonPressed .Multi)).widget.normal_param_x.value =
          w.normal_param_x.default ∧
        (w.on_event bounds (some p) st (.ButtonPressed .Multi)).widget.normal_param_y.value =
          w.normal_param_y.default ∧
        (w.on_event bounds (some p) st (.ButtonPressed .Multi)).outs =
          [Out.changeXY w.normal_param_x.default w.normal_param_y.default] ++
            (if w.on_release then [Out.release] else [])) ∧
      (¬(w.normal_param_x.value ≠ w.normal_param_x.default ∧
          w.normal_param_y.value ≠ w.normal_param_y.default) →
        (w.on_event bounds (some p) st (.ButtonPressed .Multi)).widget.normal_param_x.value =
          w.normal_param_x.value ∧
        (w.on_event bounds (some p) st (.ButtonPressed .Multi)).widget.normal_param_y.value =
          w.normal_param_y.value ∧
        (w.on_event bounds (some p) st (.ButtonPressed .Multi)).outs =
          (if st.dragging_status.isSome then
            (if w.on_release then [Out.release] else []) else []))) := by
  refine ⟨?_, ?_, ?_, ?_, ?_⟩
  · intro k bounds p st hover
    constructor
    · intro hne
      rw [knob_pressed_multi _ _ _ _ hover, if_pos hne, knob_reconcile_dragging]
      exact ⟨rfl, rfl⟩
    · intro heq
      rw [knob_pressed_multi _ _ _ _ hover, if_neg (by simp [heq]), knob_reconcile_dragging]
      by_cases hd : st.dragging_status.isSome
      · rw [if_pos hd, if_pos hd]
        exact ⟨rfl, rfl⟩
      · rw [if_neg hd, if_neg hd]
        exact ⟨rfl, rfl⟩
  · intro k bounds p st hover
    constructor
    · intro hne
      rw [vslider_pressed_multi _ _ _ _ hover, if_pos hne, vslider_reconcile_dragging]
      exact ⟨rfl, rfl⟩
    · intro heq
      rw [vslider_pressed_multi _ _ _ _ hover, if_neg (by simp [heq]),
        vslider_reconcile_dragging]
      by_cases hd : st.dragging_status.isSome
      · rw [if_pos hd, if_pos hd]
        exact ⟨rfl, rfl⟩
      · rw [if_neg hd, if_neg hd]
        exact ⟨rfl, rfl⟩
  · intro k bounds p st hover
    constructor
    · intro hne
      rw [ramp_pressed_multi _ _ _ _ hover, if_pos hne, ramp_reconcile_dragging]
      exact ⟨rfl, rfl⟩
    · intro heq
      rw [ramp_pressed_multi _ _ _ _ hover, if_neg (by simp [heq]), ramp_reconcile_dragging]
      by_cases hd : st.dragging_status.isSome
      · rw [if_pos hd, if_pos hd]
        exact ⟨rfl, rfl⟩
      · rw [if_neg hd, if_neg hd]
        exact ⟨rfl, rfl⟩
  · intro k bounds p st hover
    constructor
    · intro hne
      rw [hslider_pressed_multi _ _ _ _ hover, if_pos hne, hslider_reconcile_dragging]
      exact ⟨rfl, rfl⟩
    · intro heq
      rw [hslider_pressed_multi _ _ _ _ hover, if_neg (by simp [heq]),
        hslider_reconcile_dragging]
      by_cases hd : st.dragging_status.isSome
      · rw [if_pos hd, if_pos hd]
        exact ⟨rfl, rfl⟩
      · rw [if_neg hd, if_neg hd]
        exact ⟨rfl, rfl⟩
  · intro w bounds p st hover
    refine ⟨?_, ?_, ?_⟩
    · rw [xypad_pressed_multi _ _ _ _ hover]
      split_ifs <;> simp
    · intro hboth
      rw [xypad_pressed_multi _ _ _ _ hover, if_pos hboth]
      exact ⟨rfl, rfl, rfl⟩
    · intro hnboth
      rw [xypad_pressed_multi _ _ _ _ hover, if_neg hnboth]
      by_cases hd : st.dragging_status.isSome
      · rw [if_pos hd, if_pos hd]
        exact ⟨rfl, rfl, rfl⟩
      · rw [if_neg hd, if_neg hd]
        exact ⟨rfl, rfl, rfl⟩

/-- Witness for the amended C3: a concrete knob reset (value 1, default
1/2, idle, both callbacks defined). -/
theorem C3_witness :
    (kC2.on_event exBounds (some ⟨5, 5⟩) stC2 (.ButtonPressed .Multi)).widget.normal_param.value =
      kC2.normal_param.default ∧
    (kC2.on_event exBounds (some ⟨5, 5⟩) stC2 (.ButtonPressed .Multi)).outs =
      (if stC2.dragging_status = none ∧ kC2.on_grab then [Out.grab] else []) ++
        [Out.change kC2.normal_param.default] ++
        (if kC2.on_release then [Out.release] else []) :=
  (C3_amended_reset_to_default.1 kC2 exBounds ⟨5, 5⟩ stC2
      (by norm_num [Rect.contains, exBounds])).1
    (by norm_num [kC2, exKnob])

/-- Counterexample to C6: the xy-pad has no pre-event discontinuity
reconciliation.  With no drag active and the committed x value (9/10)
differing from the stale accumulator (3/10), processing a keyboard event
leaves the accumulator stale, contrary to the claim's "for every widget,
before any event is processed". -/
theorem C6_counterexample :
    xyStIdle.dragging_status = none ∧
    xyStIdle.continuous_normal_x ≠ wXY6.normal_param_x.value.as_f32 ∧
    (wXY6.on_event exBounds (some ⟨5, 5⟩) xyStIdle
        (.Keyboard Modifiers.empty)).status = Status.Captured ∧
    (wXY6.on_event exBounds (some ⟨5, 5⟩) xyStIdle
        (.Keyboard Modifiers.empty)).state.continuous_normal_x =
      xyStIdle.continuous_normal_x ∧
    (wXY6.on_event exBounds (some ⟨5, 5⟩) xyStIdle
        (.Keyboard Modifiers.empty)).state.continuous_normal_x ≠
      wXY6.normal_param_x.value.as_f32 := by
  have hne : xyStIdle.continuous_normal_x ≠ wXY6.normal_param_x.value.as_f32 := by
    norm_num [xyStIdle, wXY6, wXY3, Normal.as_f32]
  exact ⟨rfl, hne, rfl, rfl, hne⟩

/-- Claim C6 (amended): the knob, h-slider, v-slider and ramp run the
discontinuity reconciliation before processing every event — each event
is processed against the reconciled state, and when no drag is active and
the committed value differs from the previously observed one the
reconciled state has the accumulator re-synchronized to the committed
value and the observation updated.  The xy-pad has no such per-event
block; instead it re-synchronizes its accumulators when a drag ends
(pointer-up) and overwrites them from the absolute jump position when a
drag begins, so its next drag also starts from the committed value. -/
theorem C6_amended_discontinuity_resync :
    (∀ (k : Knob) (bounds : Rect) (cursor : Option Point) (st : KnobState) (ev : WidgetEvent),
      k.on_event bounds cursor st ev = k.on_event bounds cursor (k.reconcile st) ev) ∧
    (∀ (k : Knob) (st : KnobState), st.dragging_status = none →
      st.prev_normal ≠ k.normal_param.value →
      (k.reconcile st).continuous_normal = k.normal_param.value.as_f32 ∧
        (k.reconcile st).prev_normal = k.normal_param.value) ∧
    (∀ (v : VSlider) (bounds : Rect) (cursor : Option Point) (st : VSliderState)
        (ev : WidgetEvent),
      v.on_event bounds cursor st ev = v.on_event bounds cursor (v.reconcile st) ev) ∧
    (∀ (v : VSlider) (st : VSliderState), st.dragging_status = none →
      st.prev_normal ≠ v.normal_param.value →
      (v.reconcile st).continuous_normal = v.normal_param.value.as_f32 ∧
        (v.reconcile st).prev_normal = v.normal_param.value) ∧
    (∀ (w : Ramp) (bounds : Rect) (cursor : Option Point) (st : RampState) (ev : WidgetEvent),
      w.on_event bounds cursor st ev = w.on_event bounds cursor (w.reconcile st) ev) ∧
    (∀ (w : Ramp) (st : RampState), st.dragging_status = none →
      st.prev_normal ≠ w.normal_param.value →
      (w.reconcile st).continuous_normal = w.normal_param.value.as_f32 ∧
        (w.reconcile st).prev_normal = w.normal_param.value) ∧
    (∀ (h : HSlider) (bounds : Rect) (cursor : Option Point) (st : HSliderState)
        (ev : WidgetEvent),
      h.on_event bounds cursor st ev = h.on_event bounds cursor (h.reconcile st) ev) ∧
    (∀ (h : HSlider) (st : HSliderState), st.dragging_status = none →
      st.prev_normal ≠ h.normal_param.value →
      (h.reconcile st).continuous_normal = h.normal_param.value.as_f32 ∧
        (h.reconcile st).prev_normal = h.normal_param.value) ∧
    (∀ (w : XYPad) (bounds : Rect) (cursor : Option Point) (st : XYPadState)
        (s : SliderStatus), st.dragging_status = some s →
      (w.on_event bounds cursor st .ButtonReleased).state.continuous_normal_x =
        w.normal_param_x.value.as_f32 ∧
      (w.on_event bounds cursor st .ButtonReleased).state.continuous_normal_y =
        w.normal_param_y.value.as_f32) ∧
    (∀ (w : XYPad) (bounds : Rect) (p : Point) (st : XYPadState), bounds.contains p →
      (w.on_event bounds (some p) st (.ButtonPressed .Single)).state.continuous_normal_x =
        (p.x - bounds.x) / XYPad.bounds_size bounds ∧
      (w.on_event bounds (some p) st (.ButtonPressed .Single)).state.continuous_normal_y =
        1 - (p.y - bounds.y) / XYPad.bounds_size bounds) := by
  refine ⟨knob_on_event_reconciled, ?_, vslider_on_event_reconciled, ?_,
    ramp_on_event_reconciled, ?_, hslider_on_event_reconciled, ?_, ?_, ?_⟩
  · intro k st h1 h2
    rw [knob_reconcile_of_discontinuity k st h1 h2]
    exact ⟨rfl, rfl⟩
  · intro v st h1 h2
    rw [vslider_reconcile_of_discontinuity v st h1 h2]
    exact ⟨rfl, rfl⟩
  · intro w st h1 h2
    rw [ramp_reconcile_of_discontinuity w st h1 h2]
    exact ⟨rfl, rfl⟩
  · intro h st h1 h2
    rw [hslider_reconcile_of_discontinuity h st h1 h2]
    exact ⟨rfl, rfl⟩
  · intro w bounds cursor st s hdrag
    rw [xypad_released_of_drag _ _ _ _ _ hdrag]
    exact ⟨rfl, rfl⟩
  · intro w bounds p st hover
    rw [xypad_pressed_single _ _ _ _ hover]
    exact ⟨rfl, rfl⟩

/-- Witness for the amended C6: a concrete knob whose value was changed
externally (accumulator stale at 3/10, value 1/2) re-syncs before a
keyboard event. -/
theorem C6_witness :
    (exKnob.reconcile
        { exKnobState with prev_normal := ⟨3/10⟩, continuous_normal := 3/10 }).continuous_normal =
      exKnob.normal_param.value.as_f32 ∧
    (exKnob.reconcile
        { exKnobState with prev_normal := ⟨3/10⟩, continuous_normal := 3/10 }).prev_normal =
      exKnob.normal_param.value :=
  C6_amended_discontinuity_resync.2.1 exKnob
    { exKnobState with prev_normal := ⟨3/10⟩, continuous_normal := 3/10 }
    (by norm_num [exKnobState]) (by norm_num [exKnob, exParam, exKnobState])

/-- Claim C7: a Single pointer-down inside the xy-pad's bounds at cursor
position p sets x to clip((p.x - bounds.x) / s) and y to
clip(1 - (p.y - bounds.y) / s) with s = min(width, height), immediately,
and publishes exactly one on_change in that event (before any subsequent
pointer movement can be processed). -/
theorem C7_xypad_pointer_down_jump :
    ∀ (w : XYPad) (bounds : Rect) (p : Point) (st : XYPadState), bounds.contains p →
      XYPad.bounds_size bounds = min bounds.width bounds.height ∧
      (w.on_event bounds (some p) st (.ButtonPressed .Single)).widget.normal_param_x.value =
        Normal.clip ((p.x - bounds.x) / XYPad.bounds_size bounds) ∧
      (w.on_event bounds (some p) st (.ButtonPressed .Single)).widget.normal_param_y.value =
        Normal.clip (1 - (p.y - bounds.y) / XYPad.bounds_size bounds) ∧
      (w.on_event bounds (some p) st (.ButtonPressed .Single)).outs =
        (if w.on_grab then [Out.grab] else []) ++
          [Out.changeXY (Normal.clip ((p.x - bounds.x) / XYPad.bounds_size bounds))
            (Normal.clip (1 - (p.y - bounds.y) / XYPad.bounds_size bounds))] ∧
      ((w.on_event bounds (some p) st (.ButtonPressed .Single)).outs.countP fun o =>
        match o with
        | Out.changeXY _ _ => true
        | _ => false) = 1 := by
  intro w bounds p st hover
  refine ⟨?_, ?_, ?_, ?_, ?_⟩
  · unfold XYPad.bounds_size
    rw [min_def]
  · rw [xypad_pressed_single _ _ _ _ hover]
  · rw [xypad_pressed_single _ _ _ _ hover]
  · rw [xypad_pressed_single _ _ _ _ hover]
  · rw [xypad_pressed_single _ _ _ _ hover]
    by_cases hg : w.on_grab
    · rw [if_pos hg]
      rfl
    · rw [if_neg hg]
      rfl

/-- Witness for C7: pressing at (80, 20) in a 100-by-100 pad at the origin
jumps both values to 0.8 (y accounts for inversion) and emits one change. -/
theorem C7_witness :
    (wXY3.on_event exBounds (some ⟨80, 20⟩) xyStIdle
        (.ButtonPressed .Single)).widget.normal_param_x.value = ⟨4/5⟩ ∧
    (wXY3.on_event exBounds (some ⟨80, 20⟩) xyStIdle
        (.ButtonPressed .Single)).widget.normal_param_y.value = ⟨4/5⟩ := by
  have H := C7_xypad_pointer_down_jump wXY3 exBounds ⟨80, 20⟩ xyStIdle
    (by norm_num [Rect.contains, exBounds])
  constructor
  · rw [H.2.1]
    norm_num [XYPad.bounds_size, exBounds, Normal.clip]
  · rw [H.2.2.1]
    norm_num [XYPad.bounds_size, exBounds, Normal.clip]

/-- Claim C8: when a pointer-up (or touch lifted/lost) ends an active
drag, on_release is invoked iff on_grab is defined or the drag's recorded
status is Moved — and the recorded status is Moved only if it was already
Moved or an on_change was published by that step (the tracking parts); in
particular, with on_grab defined, on_release fires even with no movement
(status Unchanged). -/
theorem C8_release_iff_grab_defined_or_moved :
    (∀ (k : Knob) (bounds : Rect) (cursor : Option Point) (st : KnobState) (s : SliderStatus),
      st.dragging_status = some s → k.on_release = true →
      ((Out.release ∈ (k.on_event bounds cursor st .ButtonReleased).outs) ↔
        (k.on_grab = true ∨ s.was_moved = true)) ∧
      (k.on_event bounds cursor st .ButtonReleased).state.dragging_status = none) ∧
    (∀ (w : Ramp) (bounds : Rect) (cursor : Option Point) (st : RampState) (s : SliderStatus),
      st.dragging_status = some s → w.on_release = true →
      ((Out.release ∈ (w.on_event bounds cursor st .ButtonReleased).outs) ↔
        (w.on_grab = true ∨ s.was_moved = true)) ∧
      (w.on_event bounds cursor st .ButtonReleased).state.dragging_status = none) ∧
    (∀ (v : VSlider) (bounds : Rect) (cursor : Option Point) (st : VSliderState)
        (s : SliderStatus),
      st.dragging_status = some s → v.on_release = true →
      ((Out.release ∈ (v.on_event bounds cursor st .ButtonReleased).outs) ↔
        (v.on_grab = true ∨ s.was_moved = true)) ∧
      (v.on_event bounds cursor st .ButtonReleased).state.dragging_status = none) ∧
    (∀ (h : HSlider) (bounds : Rect) (cursor : Option Point) (st : HSliderState)
        (s : SliderStatus),
      st.dragging_status = some s → h.on_release = true →
      ((Out.release ∈ (h.on_event bounds cursor st .ButtonReleased).outs) ↔
        (h.on_grab = true ∨ s.was_moved = true)) ∧
      (h.on_event bounds cursor st .ButtonReleased).state.dragging_status = none) ∧
    (∀ (w : XYPad) (bounds : Rect) (cursor : Option Point) (st : XYPadState)
        (s : SliderStatus),
      st.dragging_status = some s → w.on_release = true →
      ((Out.release ∈ (w.on_event bounds cursor st .ButtonReleased).outs) ↔
        (w.on_grab = true ∨ s.was_moved = true)) ∧
      (w.on_event bounds cursor st .ButtonReleased).state.dragging_status = none) ∧
    (∀ (k : Knob) (bounds : Rect) (cursor : Option Point) (st : KnobState) (ev : WidgetEvent),
      (k.on_event bounds cursor st ev).state.dragging_status = some SliderStatus.Moved →
      st.dragging_status = some SliderStatus.Moved ∨
        ∃ v, Out.change v ∈ (k.on_event bounds cursor st ev).outs) ∧
    (∀ (w : Ramp) (bounds : Rect) (cursor : Option Point) (st : RampState) (ev : WidgetEvent),
      (w.on_event bounds cursor st ev).state.dragging_status = some SliderStatus.Moved →
      st.dragging_status = some SliderStatus.Moved ∨
        ∃ v, Out.change v ∈ (w.on_event bounds cursor st ev).outs) := by
  refine ⟨?_, ?_, ?_, ?_, ?_, knob_step_moved_tracking, ramp_step_moved_tracking⟩
  · intro k bounds cursor st s hdrag hrel
    have hdrag2 : (k.reconcile st).dragging_status = some s := by
      rw [knob_reconcile_dragging]
      exact hdrag
    rw [knob_released_of_drag _ _ _ _ _ hdrag2, if_pos hrel]
    refine ⟨?_, rfl⟩
    constructor
    · intro hmem
      by_cases hc : k.on_grab = true ∨ s.was_moved = true
      · exact hc
      · rw [if_neg hc] at hmem
        exact absurd hmem (List.not_mem_nil _)
    · intro hc
      rw [if_pos hc]
      exact List.mem_singleton_self _
  · intro w bounds cursor st s hdrag hrel
    have hdrag2 : (w.reconcile st).dragging_status = some s := by
      rw [ramp_reconcile_dragging]
      exact hdrag
    rw [ramp_released_of_drag2 _ _ _ _ _ hdrag2, if_pos hrel]
    refine ⟨?_, rfl⟩
    constructor
    · intro hmem
      by_cases hc : w.on_grab = true ∨ s.was_moved = true
      · exact hc
      · rw [if_neg hc] at hmem
        exact absurd hmem (List.not_mem_nil _)
    · intro hc
      rw [if_pos hc]
      exact List.mem_singleton_self _
  · intro v bounds cursor st s hdrag hrel
    have hdrag2 : (v.reconcile st).dragging_status = some s := by
      rw [vslider_reconcile_dragging]
      exact hdrag
    rw [vslider_released_of_drag2 _ _ _ _ _ hdrag2, if_pos hrel]
    refine ⟨?_, rfl⟩
    constructor
    · intro hmem
      by_cases hc : v.on_grab = true ∨ s.was_moved = true
      · exact hc
      · rw [if_neg hc] at hmem
        exact absurd hmem (List.not_mem_nil _)
    · intro hc
      rw [if_pos hc]
      exact List.mem_singleton_self _
  · intro h bounds cursor st s hdrag hrel
    have hdrag2 : (h.reconcile st).dragging_status = some s := by
      rw [hslider_reconcile_dragging]
      exact hdrag
    rw [hslider_released_of_drag2 _ _ _ _ _ hdrag2, if_pos hrel]
    refine ⟨?_, rfl⟩
    constructor
    · intro hmem
      by_cases hc : h.on_grab = true ∨ s.was_moved = true
      · exact hc
      · rw [if_neg hc] at hmem
        exact absurd hmem (List.not_mem_nil _)
    · intro hc
      rw [if_pos hc]
      exact List.mem_singleton_self _
  · intro w bounds cursor st s hdrag hrel
    rw [xypad_released_of_drag _ _ _ _ _ hdrag, if_pos hrel]
    refine ⟨?_, rfl⟩
    constructor
    · intro hmem
      by_cases hc : w.on_grab = true ∨ s.was_moved = true
      · exact hc
      · rw [if_neg hc] at hmem
        exact absurd hmem (List.not_mem_nil _)
    · intro hc
      rw [if_pos hc]
      exact List.mem_singleton_self _

/-- Witness for C8: with on_grab defined and a drag that never moved
(status Unchanged), pointer-up still fires on_release. -/
theorem C8_witness :
    stC2a.dragging_status = some SliderStatus.Unchanged ∧
    kC2.on_release = true ∧ kC2.on_grab = true ∧
    Out.release ∈ (kC2.on_event exBounds (some ⟨5, 5⟩) stC2a .ButtonReleased).outs := by
  have hrel : kC2.on_release = true := by norm_num [kC2, exKnob]
  have H := (C8_release_iff_grab_defined_or_moved.1 kC2 exBounds (some ⟨5, 5⟩) stC2a
    SliderStatus.Unchanged rfl hrel).1
  refine ⟨rfl, hrel, by norm_num [kC2, exKnob], ?_⟩
  exact H.mpr (Or.inl (by norm_num [kC2, exKnob]))

set_option maxHeartbeats 4000000 in
/-- Claim C9: degenerate zero-size widget bounds are handled by clamping
or treating the event as a no-op.  With zero-size bounds the v-slider,
h-slider and xy-pad never take the branches that divide by the pixel
span: their committed values are untouched and each accumulator is either
untouched or re-synced to a committed (clamped) value; the knob and the
ramp perform no division at all and keep their values clamped in [0, 1].
Hence no event against zero-size bounds stores a non-finite value. -/
theorem C9_zero_size_bounds_no_op_or_clamped :
    (∀ (v : VSlider) (cursor : Option Point) (st : VSliderState) (ev : WidgetEvent)
        (bounds : Rect), bounds.width = 0 → bounds.height = 0 →
      (v.on_event bounds cursor st ev).widget.normal_param = v.normal_param ∧
      ((v.on_event bounds cursor st ev).state.continuous_normal = st.continuous_normal ∨
        (v.on_event bounds cursor st ev).state.continuous_normal =
          v.normal_param.value.as_f32)) ∧
    (∀ (h : HSlider) (cursor : Option Point) (st : HSliderState) (ev : WidgetEvent)
        (bounds : Rect), bounds.width = 0 → bounds.height = 0 →
      (h.on_event bounds cursor st ev).widget.normal_param = h.normal_param ∧
      ((h.on_event bounds cursor st ev).state.continuous_normal = st.continuous_normal ∨
        (h.on_event bounds cursor st ev).state.continuous_normal =
          h.normal_param.value.as_f32)) ∧
    (∀ (w : XYPad) (cursor : Option Point) (st : XYPadState) (ev : WidgetEvent)
        (bounds : Rect), bounds.width = 0 → bounds.height = 0 →
      ((w.on_event bounds cursor st ev).widget.normal_param_x = w.normal_param_x ∧
        (w.on_event bounds cursor st ev).widget.normal_param_y = w.normal_param_y) ∧
      ((w.on_event bounds cursor st ev).state.continuous_normal_x = st.continuous_normal_x ∨
        (w.on_event bounds cursor st ev).state.continuous_normal_x =
          w.normal_param_x.value.as_f32) ∧
      ((w.on_event bounds cursor st ev).state.continuous_normal_y = st.continuous_normal_y ∨
        (w.on_event bounds cursor st ev).state.continuous_normal_y =
          w.normal_param_y.value.as_f32)) ∧
    (∀ (k : Knob) (cursor : Option Point) (st : KnobState) (ev : WidgetEvent)
        (bounds : Rect), bounds.width = 0 → bounds.height = 0 →
      k.normal_param.InRange → ((k.on_event bounds cursor st ev).widget.normal_param).InRange) ∧
    (∀ (w : Ramp) (cursor : Option Point) (st : RampState) (ev : WidgetEvent)
        (bounds : Rect), bounds.width = 0 → bounds.height = 0 →
      w.normal_param.InRange → ((w.on_event bounds cursor st ev).widget.normal_param).InRange) := by
  refine ⟨?_, ?_, ?_, ?_, ?_⟩
  · intro v cursor st ev bounds hw hh
    unfold VSlider.on_event VSlider.reconcile
    cases ev <;> dsimp only <;> repeat' (split <;> (try dsimp only))
    all_goals
      first
        | exact ⟨rfl, Or.inl rfl⟩
        | exact ⟨rfl, Or.inr rfl⟩
        | exact absurd (by assumption) (isOver_of_width_zero _ _ hw)
        | exact absurd (by assumption) (Rect.not_contains_of_width_zero _ _ hw)
        | simp_all
  · intro h cursor st ev bounds hw hh
    unfold HSlider.on_event HSlider.reconcile
    cases ev <;> dsimp only <;> repeat' (split <;> (try dsimp only))
    all_goals
      first
        | exact ⟨rfl, Or.inl rfl⟩
        | exact ⟨rfl, Or.inr rfl⟩
        | exact absurd (by assumption) (isOver_of_width_zero _ _ hw)
        | exact absurd (by assumption) (Rect.not_contains_of_width_zero _ _ hw)
        | simp_all
  · intro w cursor st ev bounds hw hh
    unfold XYPad.on_event
    cases ev <;> dsimp only <;> repeat' (split <;> (try dsimp only))
    all_goals
      first
        | exact ⟨⟨rfl, rfl⟩, Or.inl rfl, Or.inl rfl⟩
        | exact ⟨⟨rfl, rfl⟩, Or.inr rfl, Or.inr rfl⟩
        | exact absurd (bounds_size_zero bounds hw hh) (by assumption)
        | exact absurd (by assumption) (Rect.not_contains_of_width_zero _ _ hw)
        | simp_all
  · intro k cursor st ev bounds hw hh hIn
    exact knob_step_param_in_range k bounds cursor st ev hIn
  · intro w cursor st ev bounds hw hh hIn
    exact ramp_step_param_in_range w bounds cursor st ev hIn

/-- Witness for C9: a drag-move against zero-size bounds on the v-slider
leaves the committed value and the accumulator untouched. -/
theorem C9_witness :
    ((VSlider.new exParam).on_event ⟨0, 0, 0, 0⟩ (some ⟨5, 5⟩) exVSliderDragSt
        (.CursorMoved ⟨5, 300⟩)).widget.normal_param = (VSlider.new exParam).normal_param ∧
    (((VSlider.new exParam).on_event ⟨0, 0, 0, 0⟩ (some ⟨5, 5⟩) exVSliderDragSt
        (.CursorMoved ⟨5, 300⟩)).state.continuous_normal = exVSliderDragSt.continuous_normal ∨
      ((VSlider.new exParam).on_event ⟨0, 0, 0, 0⟩ (some ⟨5, 5⟩) exVSliderDragSt
        (.CursorMoved ⟨5, 300⟩)).state.continuous_normal =
        (VSlider.new exParam).normal_param.value.as_f32) :=
  C9_zero_size_bounds_no_op_or_clamped.1 (VSlider.new exParam) (some ⟨5, 5⟩)
    exVSliderDragSt (.CursorMoved ⟨5, 300⟩) ⟨0, 0, 0, 0⟩ rfl rfl

end IcedAudio
